import Mathlib

/-!
Verification of the anomaly-detection core of the ma-civic-tracker
repository (src/lib/anomaly-detection.ts, reproduced in src/README.md).

The TypeScript module is shallowly embedded: JavaScript numbers are
modelled as exact rationals (`ℚ`), `Array.prototype.sort` (stable in
modern engines) as `List.insertionSort` (stable), object-key grouping
(`Record<string, ...>` built by insertion) as grouping in
first-occurrence key order, and the mutable `anomalyId` counter as an
explicit counter threaded through every detector.  Where JavaScript
produces `NaN`/`undefined` on out-of-range operations (quartile
indexing of an empty array, division by a zero vendor count) and the
surrounding code then observably produces no anomalies, the embedding
uses a total default with the same observable result; the totality
theorems show the defaults are only reachable on empty input.
-/

/-- A spending record as consumed by the detector
(`interface Transaction`). -/
structure Transaction where
  department : String
  vendor : String
  amount : ℚ
  date : String
  description : Option String := none
deriving DecidableEq, Repr

/-- A finding produced by one of the detection methods
(`interface Anomaly`).  `severity` is one of "critical", "high",
"medium", "low". -/
structure Anomaly where
  id : String
  type : String
  severity : String
  title : String
  description : String
  vendor : Option String := none
  department : Option String := none
  amount : Option ℚ := none
  count : Option Nat := none
  details : List String := []
  investigationTips : List String := []
deriving DecidableEq, Repr

/-- The aggregate statistics returned next to the anomaly list. -/
structure DetectionStats where
  totalAnomalies : Nat
  criticalCount : Nat
  highCount : Nat
  mediumCount : Nat
  lowCount : Nat
  totalFlaggedAmount : ℚ
deriving DecidableEq, Repr

/-- The return value of `analyzeTransactions`. -/
structure AnalysisResult where
  anomalies : List Anomaly
  stats : DetectionStats
deriving DecidableEq, Repr

/-! ### Number formatting helpers

These model the display helpers of the source (`formatCurrency` from
`lib/utils.ts`, `Number.prototype.toLocaleString`,
`Number.prototype.toFixed`, `Math.round`) for the values the detector
feeds them.  They only influence the human-readable strings. -/

/-- `Math.round`: round half toward positive infinity. -/
def jsRound (q : ℚ) : Int := ⌊q + 1 / 2⌋

/-- Insert a comma before every fourth digit of a reversed digit
list (`k` counts the digits already placed in the current group). -/
def commaRev : List Char → Nat → List Char
  | [], _ => []
  | c :: cs, k => if k = 3 then ',' :: c :: commaRev cs 1 else c :: commaRev cs (k + 1)

/-- Comma grouping of a natural number, as `toLocaleString('en-US')`
renders a nonnegative integer. -/
def natComma (n : Nat) : String :=
  String.mk ((commaRev (toString n).data.reverse 0).reverse)

/-- `toLocaleString` for the (integer-valued) numbers the detector
displays; negative values keep their sign. -/
def intComma (i : Int) : String :=
  if i < 0 then "-" ++ natComma i.natAbs else natComma i.natAbs

/-- Zero-pad a digit string on the left to `f` characters. -/
def padZeros (s : String) (f : Nat) : String :=
  String.mk (List.replicate (f - s.length) '0') ++ s

/-- `toFixed(f)` for a nonnegative rational: round half away from zero
at `f` decimal places and print. -/
def toFixedPos (q : ℚ) (f : Nat) : String :=
  let n : Nat := (⌊q * (10 : ℚ) ^ f + 1 / 2⌋).toNat
  let base : Nat := 10 ^ f
  if f = 0 then toString n
  else toString (n / base) ++ "." ++ padZeros (toString (n % base)) f

/-- `Number.prototype.toFixed(f)` (ECMA-262: a negative value formats
as "-" followed by the formatting of its negation). -/
def jsToFixed (q : ℚ) (f : Nat) : String :=
  if q < 0 then "-" ++ toFixedPos (-q) f else toFixedPos q f

/-- `formatCurrency` from `lib/utils.ts`: USD with zero fraction
digits, so a dollar sign before the rounded, comma-grouped amount. -/
def formatCurrency (amount : ℚ) : String :=
  if amount < 0 then "-$" ++ natComma (⌊-amount + 1 / 2⌋).toNat
  else "$" ++ natComma (⌊amount + 1 / 2⌋).toNat

/-- `toLocaleString` as the detector uses it on numeric values; the
values it receives are integers, rendered with comma grouping. -/
def qToLocaleString (q : ℚ) : String :=
  if q.den = 1 then intComma q.num
  else jsToFixed q 3

/-! ### Grouping helpers

JavaScript builds groups in `Record<string, T[]>` objects: string keys
iterate in first-insertion order, and each group keeps input order.
(JavaScript iterates canonical-integer keys such as "123" ahead of the
other keys; the embedding keeps pure insertion order for all keys —
the properties proved below count or aggregate over groups and do not
depend on the iteration order of distinct vendors.) -/

/-- The distinct elements of `l` in first-occurrence order (the key
iteration order of an insertion-built JavaScript object). -/
def firstDedup {α : Type} [DecidableEq α] : List α → List α
  | [] => []
  | x :: xs => x :: (firstDedup xs).filter (fun y => decide (y ≠ x))

/-- Group transactions by vendor: distinct vendors in first-occurrence
order, each with its transactions in input order. -/
def groupByVendor (transactions : List Transaction) :
    List (String × List Transaction) :=
  (firstDedup (transactions.map (fun t => t.vendor))).map
    (fun v => (v, transactions.filter (fun t => decide (t.vendor = v))))

/-- Emit one anomaly per list entry, threading the shared `anomalyId`
counter exactly as the source's `anomalyId++` does. -/
def emitAll {α : Type} (mk : Nat → α → Anomaly) (id : Nat) :
    List α → List Anomaly × Nat
  | [] => ([], id)
  | x :: xs =>
    let rest := emitAll mk (id + 1) xs
    (mk id x :: rest.1, rest.2)

/-! ### Date helpers

Modelled for the ISO `YYYY-MM-DD...` date strings the fetch layer
supplies.  An unparseable or empty date yields `none` (JavaScript's
`NaN` timestamp / the `!t.date` guard). -/

/-- Parse a decimal natural number, `none` on empty or non-digits. -/
def parseNatDigits (cs : List Char) : Option Nat :=
  if cs = [] then none
  else if cs.all Char.isDigit then
    some (cs.foldl (fun acc c => acc * 10 + (c.toNat - 48)) 0)
  else none

/-- Days from 1970-01-01 of a civil date (proleptic Gregorian). -/
def daysFromCivil (y m d : Int) : Int :=
  let y' := if m ≤ 2 then y - 1 else y
  let era := (if 0 ≤ y' then y' else y' - 399) / 400
  let yoe := y' - era * 400
  let mp := (m + 9) % 12
  let doy := (153 * mp + 2) / 5 + d - 1
  let doe := yoe * 365 + yoe / 4 - yoe / 100 + doy
  era * 146097 + doe - 719468

/-- The epoch-millisecond timestamp `new Date(s).getTime()` of an ISO
date string, taking the leading `YYYY-MM-DD` calendar date. -/
def jsParseDateMs (s : String) : Option Int :=
  match (((s.splitOn "T").headD "").splitOn " ").headD "" |>.splitOn "-" with
  | [ys, ms, ds] =>
    match parseNatDigits ys.data, parseNatDigits ms.data, parseNatDigits ds.data with
    | some y, some m, some d =>
      if 1 ≤ m ∧ m ≤ 12 ∧ 1 ≤ d ∧ d ≤ 31 then
        some (daysFromCivil y m d * 86400000)
      else none
    | _, _, _ => none
  | _ => none

/-- `new Date(s).getDay()`: 0 = Sunday … 6 = Saturday (1970-01-01 was
a Thursday, day 4). -/
def jsGetDay (s : String) : Option Int :=
  (jsParseDateMs s).map (fun ms => (ms / 86400000 + 4) % 7)

/-! ### Leading digits -/

/-- Leading decimal digit: drop low digits until below ten (the fuel
argument bounds the recursion and never runs out for `fuel ≥ n`). -/
def leadingDigitAux : Nat → Nat → Nat
  | 0, n => n
  | fuel + 1, n => if n < 10 then n else leadingDigitAux fuel (n / 10)

/-- Leading decimal digit of a natural number. -/
def leadingDigitNat (n : Nat) : Nat := leadingDigitAux n n

/-- `parseInt(String(amount)[0])` for the amounts the digit check
feeds it (all `≥ 100`): the leading digit of the integer part. -/
def firstDigitOf (q : ℚ) : Nat := leadingDigitNat (⌊q⌋).toNat

/-! ### Vendor-name regular expressions

The three patterns of `detectAddressRedFlags`, written out over the
name's character list.  All are case-insensitive (`/i`); `\b` is a
word/non-word transition, `.` excludes line terminators, `\s` is
whitespace, `[A-Z]` under `/i` is any ASCII letter. -/

/-- JavaScript `\w`: ASCII letters, digits and underscore. -/
def isWordChar (c : Char) : Bool := c.isAlphanum || c == '_'

/-- JavaScript line terminators (what `.` does not match). -/
def isLineTerm (c : Char) : Bool :=
  c == '\n' || c == '\r' || c == ' ' || c == ' '

/-- JavaScript `\s`: ECMA-262 WhiteSpace (TAB, VT, FF, ZWNBSP U+FEFF and the
Space_Separator characters U+0020, U+00A0 NBSP, U+1680, U+2000..U+200A,
U+202F, U+205F, U+3000) together with the LineTerminators LF, CR, U+2028
and U+2029. -/
def jsSpaceChar (c : Char) : Bool :=
  c == ' ' || c == '\t' || c == '\n' || c == '\r' || c == '\x0b' || c == '\x0c'
  || c.val == 0xA0 || c.val == 0x1680
  || (0x2000 ≤ c.val && c.val ≤ 0x200A)
  || c.val == 0x2028 || c.val == 0x2029
  || c.val == 0x202F || c.val == 0x205F || c.val == 0x3000
  || c.val == 0xFEFF

/-- Case-insensitive character comparison (ASCII folding, as `/i`). -/
def ciEq (a b : Char) : Bool := a.toLower == b.toLower

/-- Does `cs` start with `pat`, case-insensitively? -/
def startsWithCI : List Char → List Char → Bool
  | _, [] => true
  | [], _ :: _ => false
  | c :: cs, p :: ps => ciEq c p && startsWithCI cs ps

/-- A `\bLLC\b` token (case-insensitive) starting at position `i`. -/
def llcTokenAt (cs : List Char) (i : Nat) : Bool :=
  startsWithCI (cs.drop i) ['l', 'l', 'c']
  && (i == 0 || !isWordChar (cs.getD (i - 1) ' '))
  && !isWordChar (cs.getD (i + 3) ' ')

/-- `/\bLLC\b.*\bLLC\b/i`: two "LLC" tokens with no line terminator
between them. -/
def doubleLLCPattern (s : String) : Bool :=
  let cs := s.data
  (List.range (cs.length + 1)).any (fun i =>
    llcTokenAt cs i &&
    (List.range (cs.length + 1)).any (fun j =>
      i + 3 ≤ j && llcTokenAt cs j &&
      ((cs.drop (i + 3)).take (j - (i + 3))).all (fun c => !isLineTerm c)))

/-- `/^[A-Z]{2,4}\s+(LLC|INC|CORP)/i`: 2-4 letters, whitespace, then
one of the three company tokens. -/
def acronymPattern (s : String) : Bool :=
  let cs := s.data
  [2, 3, 4].any (fun k =>
    (cs.take k).length == k && (cs.take k).all Char.isAlpha &&
    (List.range (cs.length + 1)).any (fun m =>
      1 ≤ m && ((cs.drop k).take m).length == m
      && ((cs.drop k).take m).all jsSpaceChar
      && (startsWithCI (cs.drop (k + m)) ['l', 'l', 'c']
          || startsWithCI (cs.drop (k + m)) ['i', 'n', 'c']
          || startsWithCI (cs.drop (k + m)) ['c', 'o', 'r', 'p'])))

/-- Case-insensitive substring test. -/
def containsCI (s pat : String) : Bool :=
  (List.range (s.data.length + 1)).any
    (fun i => startsWithCI (s.data.drop i) pat.data)

/-- `/consulting|services|solutions|enterprises|holdings/i`. -/
def genericNamePattern (s : String) : Bool :=
  containsCI s "consulting" || containsCI s "services" || containsCI s "solutions"
  || containsCI s "enterprises" || containsCI s "holdings"

/-- The `suspiciousPatterns` array, in its fixed priority order. -/
def suspiciousPatterns : List ((String → Bool) × String) :=
  [(doubleLLCPattern, "Double LLC"),
   (acronymPattern, "Acronym company"),
   (genericNamePattern, "Generic business name")]

/-! ### Shared arithmetic helpers -/

/-- `txns.reduce((sum, t) => sum + t.amount, 0)`. -/
def sumAmounts (txns : List Transaction) : ℚ :=
  txns.foldl (fun sum t => sum + t.amount) 0

/-- How many transactions of the whole input belong to `vendor`. -/
def totalForVendor (transactions : List Transaction) (vendor : String) : Nat :=
  (transactions.filter (fun t => decide (t.vendor = vendor))).length

/-- `amount % divisor === 0` for exact rationals: the quotient is an
integer. -/
def isExactMultiple (amount divisor : ℚ) : Bool := (amount / divisor).den == 1

/-! ### 1. Benford's law -/

/-- The `BENFORD_EXPECTED` table of leading-digit frequencies. -/
def BENFORD_EXPECTED (d : Nat) : ℚ :=
  match d with
  | 1 => 0.301
  | 2 => 0.176
  | 3 => 0.125
  | 4 => 0.097
  | 5 => 0.079
  | 6 => 0.067
  | 7 => 0.058
  | 8 => 0.051
  | 9 => 0.046
  | _ => 0

/-- The nine leading digits. -/
def benfordDigits : List Nat := [1, 2, 3, 4, 5, 6, 7, 8, 9]

/-- The amounts the digit check samples: amounts of transactions with
`amount >= 100`. -/
def benfordAmounts (transactions : List Transaction) : List ℚ :=
  (transactions.filter (fun t => decide (100 ≤ t.amount))).map (fun t => t.amount)

/-- Occurrences of leading digit `d` among the sampled amounts. -/
def digitCount (amounts : List ℚ) (d : Nat) : Nat :=
  amounts.countP (fun a => decide (firstDigitOf a = d))

/-- One row of the deviation table. -/
structure BenfordDeviation where
  digit : Nat
  expected : ℚ
  actual : ℚ
  deviation : ℚ
deriving DecidableEq, Repr

/-- The digits whose observed frequency deviates from the expected one
by more than five percentage points. -/
def benfordDeviations (amounts : List ℚ) : List BenfordDeviation :=
  benfordDigits.filterMap (fun digit =>
    let expected := BENFORD_EXPECTED digit
    let actual := (digitCount amounts digit : ℚ) / (amounts.length : ℚ)
    let deviation := |actual - expected|
    if 0.05 < deviation then some ⟨digit, expected, actual, deviation⟩ else none)

/-- Descending order on deviation magnitude (the sort comparator
`(a, b) => b.deviation - a.deviation`). -/
def devGE (a b : BenfordDeviation) : Prop := b.deviation ≤ a.deviation

instance : DecidableRel devGE :=
  fun a b => inferInstanceAs (Decidable (b.deviation ≤ a.deviation))

instance : IsTotal BenfordDeviation devGE :=
  ⟨fun a b => le_total b.deviation a.deviation⟩

instance : IsTrans BenfordDeviation devGE :=
  ⟨fun _ _ _ h1 h2 => le_trans h2 h1⟩

/-- `deviations.sort((a, b) => b.deviation - a.deviation)`: a stable
descending sort. -/
def sortDeviations (l : List BenfordDeviation) : List BenfordDeviation :=
  List.insertionSort devGE l

/-- The per-digit evidence line of the digit-check anomaly. -/
def benfordDetailLine (d : BenfordDeviation) : String :=
  "Digit " ++ toString d.digit ++ ": Expected " ++ jsToFixed (d.expected * 100) 1
    ++ "%, Actual " ++ jsToFixed (d.actual * 100) 1 ++ "% ("
    ++ (if 0 < d.deviation then "+" else "")
    ++ jsToFixed ((d.actual - d.expected) * 100) 1 ++ "% deviation)"

/-- `analyzeBenfordsLaw`. -/
def analyzeBenfordsLaw (transactions : List Transaction) (startId : Nat) :
    List Anomaly × Nat :=
  let amounts := benfordAmounts transactions
  if amounts.length < 100 then ([], startId)
  else
    let total := amounts.length
    let deviations := benfordDeviations amounts
    if 0 < deviations.length then
      let sorted := sortDeviations deviations
      let severity :=
        if sorted.any (fun d => decide (0.1 < d.deviation)) then "high" else "medium"
      ([{ id := "anomaly-" ++ toString startId
          type := "benfords_law"
          severity := severity
          title := "Benford's Law Deviation Detected"
          description := "Payment amounts don't follow expected natural distribution - a potential indicator of fabricated numbers"
          details := ("Analyzed " ++ natComma total ++ " payments over $100")
            :: (sorted.take 3).map benfordDetailLine
            ++ ["Higher-than-expected rates of digits 7-9 can indicate fabricated invoices"]
          investigationTips :=
            ["Benford's Law violations suggest numbers may not be naturally occurring",
             "Fabricated invoice amounts often skew toward higher first digits",
             "Cross-reference with vendors showing the largest deviations",
             "This was a key indicator in the Feeding Our Future fraud case"] }],
        startId + 1)
    else ([], startId)

/-! ### 2. Duplicate payments -/

/-- The duplicate-payment groups: distinct `(vendor, amount)` keys in
first-occurrence order (the `` `${t.vendor}|${t.amount}` `` object
keys, for vendor names without a pipe), with their transactions. -/
def duplicateGroups (transactions : List Transaction) :
    List ((String × ℚ) × List Transaction) :=
  (firstDedup (transactions.map (fun t => (t.vendor, t.amount)))).map
    (fun k => (k, transactions.filter
      (fun t => decide (t.vendor = k.1) && decide (t.amount = k.2))))

/-- The displayed day span between earliest and latest date of a
group; `"NaN"` when some date fails to parse (the `NaN` timestamp). -/
def daySpanString (txns : List Transaction) : String :=
  let times := txns.filterMap (fun t => jsParseDateMs t.date)
  if times.length = txns.length ∧ times ≠ [] then
    let sorted := List.insertionSort (fun a b : Int => a ≤ b) times
    toString (jsRound (((sorted.getLastD 0 - sorted.headD 0 : Int) : ℚ) / 86400000))
  else "NaN"

/-- One duplicate-payment anomaly (group key carries `txns[0].amount`). -/
def mkDuplicateAnomaly (id : Nat) (g : (String × ℚ) × List Transaction) : Anomaly :=
  let vendor := g.1.1
  let txns := g.2
  let totalAmount := sumAmounts txns
  { id := "anomaly-" ++ toString id
    type := "duplicate_payments"
    severity := if 5 ≤ txns.length ∨ 100000 < totalAmount then "high" else "medium"
    title := "Potential Duplicate Payments"
    description := vendor ++ " received " ++ toString txns.length
      ++ " identical payments of " ++ formatCurrency g.1.2
    vendor := some vendor
    amount := some totalAmount
    count := some txns.length
    details := ["Vendor: " ++ vendor,
      "Identical payment amount: " ++ formatCurrency g.1.2,
      "Number of identical payments: " ++ toString txns.length,
      "Total paid: " ++ formatCurrency totalAmount,
      "Time span: " ++ daySpanString txns ++ " days",
      "Department(s): " ++ String.intercalate ", "
        (firstDedup (txns.map (fun t => t.department)))]
    investigationTips :=
      ["Verify each payment corresponds to a unique service/invoice",
       "Check for different invoice numbers on same-amount payments",
       "Could indicate invoice resubmission or system error",
       "Request supporting documentation for each payment"] }

/-- `detectDuplicatePayments`. -/
def detectDuplicatePayments (transactions : List Transaction) (startId : Nat) :
    List Anomaly × Nat :=
  emitAll mkDuplicateAnomaly startId
    ((duplicateGroups transactions).filter
      (fun g => decide (3 ≤ g.2.length) && decide ((1000 : ℚ) < g.1.2)))

/-! ### 3. Threshold avoidance -/

/-- `APPROVAL_THRESHOLDS`. -/
def APPROVAL_THRESHOLDS : List ℚ := [1000, 2500, 5000, 10000, 25000, 50000, 100000]

/-- Membership in the window `[threshold*0.95, threshold-1]`. -/
def nearThresholdWindow (threshold amount : ℚ) : Bool :=
  decide (threshold * 0.95 ≤ amount) && decide (amount ≤ threshold - 1)

/-- One threshold-avoidance anomaly for a (threshold, vendor) group. -/
def mkThresholdAnomaly (threshold : ℚ) (id : Nat)
    (g : String × List Transaction) : Anomaly :=
  let vendor := g.1
  let txns := g.2
  let lowerBound := threshold * 0.95
  let upperBound := threshold - 1
  let totalAmount := sumAmounts txns
  { id := "anomaly-" ++ toString id
    type := "threshold_avoidance"
    severity := if 5 ≤ txns.length then "critical" else "high"
    title := "Possible Invoice Splitting at $" ++ qToLocaleString threshold ++ " Threshold"
    description := vendor ++ " has " ++ toString txns.length ++ " payments between "
      ++ formatCurrency lowerBound ++ " and " ++ formatCurrency upperBound
    vendor := some vendor
    amount := some totalAmount
    count := some txns.length
    details := ["Vendor: " ++ vendor,
      "Threshold being avoided: " ++ formatCurrency threshold,
      "Payments in range: " ++ toString txns.length,
      "Amount range: " ++ formatCurrency lowerBound ++ " - " ++ formatCurrency upperBound,
      "Total if combined: " ++ formatCurrency totalAmount,
      "Sample amounts: " ++ String.intercalate ", "
        ((txns.take 5).map (fun t => formatCurrency t.amount))]
    investigationTips :=
      ["Invoice splitting is a common fraud technique to avoid approval requirements",
       "Verify if payments represent genuinely separate services",
       "Check if invoices have sequential numbers or same dates",
       "This pattern was flagged in Minnesota daycare fraud investigations",
       "Combining these would exceed the " ++ formatCurrency threshold ++ " approval threshold"] }

/-- The body of the outer `for (const threshold of APPROVAL_THRESHOLDS)`
loop: one anomaly per vendor with at least 3 payments in the window. -/
def detectThresholdAvoidanceFor (transactions : List Transaction)
    (threshold : ℚ) (id : Nat) : List Anomaly × Nat :=
  let nearThreshold := transactions.filter (fun t => nearThresholdWindow threshold t.amount)
  emitAll (mkThresholdAnomaly threshold) id
    ((groupByVendor nearThreshold).filter (fun g => decide (3 ≤ g.2.length)))

/-- `detectThresholdAvoidance`. -/
def detectThresholdAvoidance (transactions : List Transaction) (startId : Nat) :
    List Anomaly × Nat :=
  APPROVAL_THRESHOLDS.foldl
    (fun acc threshold =>
      let r := detectThresholdAvoidanceFor transactions threshold acc.2
      (acc.1 ++ r.1, r.2))
    ([], startId)

/-! ### 4. Round numbers -/

/-- One entry of the `roundPatterns` array. -/
structure RoundPattern where
  divisor : ℚ
  minAmount : ℚ
  name : String
deriving DecidableEq, Repr

/-- The three round-number patterns, in evaluation order. -/
def roundPatterns : List RoundPattern :=
  [⟨10000, 10000, "$10K increments"⟩,
   ⟨5000, 5000, "$5K increments"⟩,
   ⟨1000, 5000, "$1K increments"⟩]

/-- The transactions matching a round-number pattern. -/
def roundMatches (transactions : List Transaction) (p : RoundPattern) :
    List Transaction :=
  transactions.filter
    (fun t => decide (p.minAmount ≤ t.amount) && isExactMultiple t.amount p.divisor)

/-- One round-number anomaly for a (pattern, vendor) group. -/
def mkRoundAnomaly (transactions : List Transaction) (p : RoundPattern)
    (id : Nat) (g : String × List Transaction) : Anomaly :=
  let vendor := g.1
  let txns := g.2
  let tot := totalForVendor transactions vendor
  let roundPercentage : ℚ := (txns.length : ℚ) / (tot : ℚ) * 100
  let totalAmount := sumAmounts txns
  { id := "anomaly-" ++ toString id
    type := "round_numbers"
    severity := if 10 ≤ txns.length then "high" else "medium"
    title := "Suspicious Round Number Pattern"
    description := jsToFixed roundPercentage 0 ++ "% of payments to " ++ vendor
      ++ " are exact " ++ p.name
    vendor := some vendor
    amount := some totalAmount
    count := some txns.length
    details := ["Vendor: " ++ vendor,
      "Round number payments: " ++ toString txns.length ++ " of " ++ toString tot
        ++ " (" ++ jsToFixed roundPercentage 1 ++ "%)",
      "Pattern: " ++ p.name,
      "Total in round payments: " ++ formatCurrency totalAmount,
      "Sample amounts: " ++ String.intercalate ", "
        ((txns.take 5).map (fun t => formatCurrency t.amount))]
    investigationTips :=
      ["Legitimate invoices rarely come out to perfectly round numbers",
       "Round numbers are a classic indicator of fabricated invoices",
       "ACFE identifies round-dollar amounts as a key fraud red flag",
       "Request original invoices to verify pricing details"] }

/-- The body of the `for (const pattern of roundPatterns)` loop. -/
def detectRoundNumbersFor (transactions : List Transaction) (p : RoundPattern)
    (id : Nat) : List Anomaly × Nat :=
  emitAll (mkRoundAnomaly transactions p) id
    ((groupByVendor (roundMatches transactions p)).filter
      (fun g => decide (4 ≤ g.2.length)
        && decide (50 < (g.2.length : ℚ) / (totalForVendor transactions g.1 : ℚ) * 100)))

/-- `detectRoundNumbers`. -/
def detectRoundNumbers (transactions : List Transaction) (startId : Nat) :
    List Anomaly × Nat :=
  roundPatterns.foldl
    (fun acc p =>
      let r := detectRoundNumbersFor transactions p acc.2
      (acc.1 ++ r.1, r.2))
    ([], startId)

/-! ### 5. Weekend payments -/

/-- The weekend filter: a present date whose day-of-week is Sunday (0)
or Saturday (6). -/
def isWeekendTxn (t : Transaction) : Bool :=
  if t.date = "" then false
  else match jsGetDay t.date with
    | some day => decide (day = 0) || decide (day = 6)
    | none => false

/-- One weekend-payment anomaly. -/
def mkWeekendAnomaly (transactions : List Transaction) (id : Nat)
    (g : String × List Transaction) : Anomaly :=
  let vendor := g.1
  let txns := g.2
  let totalAmount := sumAmounts txns
  let allCount := totalForVendor transactions vendor
  let weekendPercentage : ℚ := (txns.length : ℚ) / (allCount : ℚ) * 100
  { id := "anomaly-" ++ toString id
    type := "weekend_payments"
    severity := if 40 < weekendPercentage then "high" else "medium"
    title := "High Weekend Payment Activity"
    description := jsToFixed weekendPercentage 0 ++ "% of payments to " ++ vendor
      ++ " occurred on weekends"
    vendor := some vendor
    amount := some totalAmount
    count := some txns.length
    details := ["Vendor: " ++ vendor,
      "Weekend payments: " ++ toString txns.length ++ " of " ++ toString allCount
        ++ " (" ++ jsToFixed weekendPercentage 1 ++ "%)",
      "Total weekend payments: " ++ formatCurrency totalAmount,
      "Government offices typically don't process payments on weekends"]
    investigationTips :=
      ["Weekend payments may indicate backdated transactions",
       "In MN fraud cases, services claimed on weekends when facilities were closed",
       "Verify the vendor actually provides weekend services",
       "Cross-reference with vendor operating hours"] }

/-- `detectWeekendPayments`. -/
def detectWeekendPayments (transactions : List Transaction) (startId : Nat) :
    List Anomaly × Nat :=
  let weekendPayments := transactions.filter isWeekendTxn
  if weekendPayments.length = 0 then ([], startId)
  else
    emitAll (mkWeekendAnomaly transactions) startId
      ((groupByVendor weekendPayments).filter
        (fun g => decide (5 ≤ g.2.length)
          && decide (20 < (g.2.length : ℚ) / (totalForVendor transactions g.1 : ℚ) * 100)))

/-! ### 6. Same-day payments -/

/-- Dated transactions with their `(vendor, date-part)` group key
(`t.date.split('T')[0]`; dateless records are skipped). -/
def sameDayKeyed (transactions : List Transaction) :
    List ((String × String) × Transaction) :=
  transactions.filterMap (fun t =>
    if t.date = "" then none
    else some ((t.vendor, (t.date.splitOn "T").headD ""), t))

/-- The same-day groups in first-occurrence key order. -/
def sameDayGroups (transactions : List Transaction) :
    List ((String × String) × List Transaction) :=
  (firstDedup ((sameDayKeyed transactions).map (fun x => x.1))).map
    (fun k => (k, ((sameDayKeyed transactions).filter
      (fun x => decide (x.1 = k))).map (fun x => x.2)))

/-- One same-day-payments anomaly. -/
def mkSameDayAnomaly (id : Nat) (g : (String × String) × List Transaction) : Anomaly :=
  let vendor := g.1.1
  let date := g.1.2
  let txns := g.2
  let totalAmount := sumAmounts txns
  { id := "anomaly-" ++ toString id
    type := "same_day_payments"
    severity := if 5 ≤ txns.length ∨ 50000 < totalAmount then "high" else "medium"
    title := "Multiple Same-Day Payments"
    description := vendor ++ " received " ++ toString txns.length
      ++ " separate payments on " ++ date
    vendor := some vendor
    amount := some totalAmount
    count := some txns.length
    details := ["Vendor: " ++ vendor,
      "Date: " ++ date,
      "Number of payments: " ++ toString txns.length,
      "Individual amounts: " ++ String.intercalate ", "
        (txns.map (fun t => formatCurrency t.amount)),
      "Combined total: " ++ formatCurrency totalAmount,
      "Departments: " ++ String.intercalate ", "
        (firstDedup (txns.map (fun t => t.department)))]
    investigationTips :=
      ["Multiple same-day payments may indicate invoice splitting",
       "Could be used to keep individual amounts below approval thresholds",
       "Verify each payment corresponds to a distinct service",
       "Check if invoices are sequentially numbered"] }

/-- `detectSameDayPayments`. -/
def detectSameDayPayments (transactions : List Transaction) (startId : Nat) :
    List Anomaly × Nat :=
  emitAll mkSameDayAnomaly startId
    ((sameDayGroups transactions).filter (fun g => decide (3 ≤ g.2.length)))

/-! ### 7. Vendor-name red flags -/

/-- One vendor-name anomaly, tagged with the matched pattern's name. -/
def mkRedFlagAnomaly (id : Nat)
    (x : (String × List Transaction) × ((String → Bool) × String)) : Anomaly :=
  let vendor := x.1.1
  let txns := x.1.2
  let name := x.2.2
  let total := sumAmounts txns
  { id := "anomaly-" ++ toString id
    type := "vendor_name_flag"
    severity := if 500000 < total then "medium" else "low"
    title := "Vendor Name Red Flag: " ++ name
    description := "\"" ++ vendor ++ "\" matches shell company naming patterns"
    vendor := some vendor
    amount := some total
    count := some txns.length
    details := ["Vendor: " ++ vendor,
      "Pattern matched: " ++ name,
      "Total payments: " ++ formatCurrency total,
      "Number of payments: " ++ toString txns.length,
      "Primary department: " ++
        (match txns.head? with
         | some t => if t.department = "" then "Unknown" else t.department
         | none => "Unknown")]
    investigationTips :=
      ["Generic business names are commonly used by shell companies",
       "Verify business registration with Secretary of State",
       "Search for web presence and physical location",
       "Check if business address is a PO Box or virtual office",
       "Cross-reference with employee addresses"] }

/-- The body of the red-flag loop for one vendor group: skip vendors
under $50,000 (`continue`), otherwise take the first matching pattern
(`break` after one match), if any. -/
def redFlagSelect (g : String × List Transaction) :
    Option ((String × List Transaction) × ((String → Bool) × String)) :=
  if sumAmounts g.2 < 50000 then none
  else match suspiciousPatterns.find? (fun pr => pr.1 g.1) with
    | some pr => some (g, pr)
    | none => none

/-- `detectAddressRedFlags`: high-value vendors whose name matches the
first of the three suspicious patterns. -/
def detectAddressRedFlags (transactions : List Transaction) (startId : Nat) :
    List Anomaly × Nat :=
  emitAll mkRedFlagAnomaly startId
    ((groupByVendor transactions).filterMap redFlagSelect)

/-! ### 8. High-frequency vendors -/

/-- One high-frequency anomaly. -/
def mkHighFrequencyAnomaly (avgCount : ℚ) (id : Nat)
    (g : String × List Transaction) : Anomaly :=
  let vendor := g.1
  let txns := g.2
  let total := sumAmounts txns
  let avgPayment := total / (txns.length : ℚ)
  let multiple := jsRound ((txns.length : ℚ) / avgCount)
  { id := "anomaly-" ++ toString id
    type := "high_frequency"
    severity := if 100 < txns.length then "high" else "medium"
    title := "Unusually High Payment Frequency"
    description := vendor ++ " received " ++ toString txns.length
      ++ " separate payments (" ++ toString multiple ++ "x average)"
    vendor := some vendor
    amount := some total
    count := some txns.length
    details := ["Vendor: " ++ vendor,
      "Total payments: " ++ toString txns.length,
      "Average for all vendors: " ++ jsToFixed avgCount 0 ++ " payments",
      "This vendor: " ++ toString multiple ++ "x the average",
      "Total amount: " ++ formatCurrency total,
      "Average payment: " ++ formatCurrency avgPayment,
      "Departments involved: " ++ toString (firstDedup (txns.map (fun t => t.department))).length]
    investigationTips :=
      ["High frequency may indicate split payments to avoid thresholds",
       "Could also indicate legitimate high-volume vendor relationship",
       "Verify contract terms support payment frequency",
       "Check for duplicate services across departments"] }

/-- Mean transaction count per distinct vendor (JavaScript evaluates
`0/0` to `NaN` on empty input; the embedding's `0` is observably the
same there, since there is no vendor to flag). -/
def avgVendorCount (transactions : List Transaction) : ℚ :=
  (((groupByVendor transactions).foldl (fun sum g => sum + g.2.length) 0 : Nat) : ℚ)
    / ((groupByVendor transactions).length : ℚ)

/-- `detectHighFrequency`. -/
def detectHighFrequency (transactions : List Transaction) (startId : Nat) :
    List Anomaly × Nat :=
  emitAll (mkHighFrequencyAnomaly (avgVendorCount transactions)) startId
    ((groupByVendor transactions).filter
      (fun g => decide (avgVendorCount transactions * 5 < (g.2.length : ℚ))
        && decide (20 < g.2.length)))

/-! ### 9. Large outliers -/

/-- All amounts, sorted ascending (`.sort((a, b) => a - b)`). -/
def sortedAmounts (transactions : List Transaction) : List ℚ :=
  List.insertionSort (fun a b : ℚ => a ≤ b) (transactions.map (fun t => t.amount))

/-- The element at `Math.floor(amounts.length / 2)`. -/
def outlierMedian (transactions : List Transaction) : ℚ :=
  let amounts := sortedAmounts transactions
  amounts.getD ((⌊(amounts.length : ℚ) / 2⌋).toNat) 0

/-- `Q3 + 3 * IQR`, the extreme-outlier fence.  On empty input
JavaScript indexes past the array and the fence is `NaN`, against
which every comparison is false; the embedding's default `0` is
observably the same, since there is no transaction to filter. -/
def upperFence (transactions : List Transaction) : ℚ :=
  let amounts := sortedAmounts transactions
  let q3 := amounts.getD ((⌊(amounts.length : ℚ) * 0.75⌋).toNat) 0
  let iqr := q3 - amounts.getD ((⌊(amounts.length : ℚ) * 0.25⌋).toNat) 0
  q3 + iqr * 3

/-- One large-outlier anomaly. -/
def mkOutlierAnomaly (median : ℚ) (id : Nat) (t : Transaction) : Anomaly :=
  let multiplier := jsRound (t.amount / median)
  { id := "anomaly-" ++ toString id
    type := "large_outlier"
    severity := if 10000000 < t.amount then "critical" else "high"
    title := "Extreme Payment Amount"
    description := formatCurrency t.amount ++ " payment to " ++ t.vendor
      ++ " is " ++ intComma multiplier ++ "x the median"
    vendor := some t.vendor
    department := some t.department
    amount := some t.amount
    details := (["Vendor: " ++ t.vendor,
      "Department: " ++ t.department,
      "Amount: " ++ formatCurrency t.amount,
      "Median payment: " ++ formatCurrency median,
      "This payment is " ++ intComma multiplier ++ "x the median",
      "Date: " ++ (if t.date = "" then "Unknown" else t.date),
      (match t.description with
       | some d => if d = "" then "" else "Description: " ++ d
       | none => "")]).filter (fun s => decide (s ≠ ""))
    investigationTips :=
      ["Verify payment matches a valid contract or purchase order",
       "Large one-time payments warrant additional scrutiny",
       "Check if payment was properly approved at appropriate levels",
       "Request supporting documentation (contracts, invoices, receipts)"] }

/-- `detectOutliers`: the first ten transactions, in input order, above
both the fence and one million dollars. -/
def detectOutliers (transactions : List Transaction) (startId : Nat) :
    List Anomaly × Nat :=
  let outliers := transactions.filter
    (fun t => decide (upperFence transactions < t.amount)
      && decide ((1000000 : ℚ) < t.amount))
  emitAll (mkOutlierAnomaly (outlierMedian transactions)) startId (outliers.take 10)

/-! ### 10. Vendor concentration -/

/-- Total spending per vendor, in first-occurrence vendor order. -/
def vendorTotalsList (transactions : List Transaction) : List (String × ℚ) :=
  (groupByVendor transactions).map (fun g => (g.1, sumAmounts g.2))

/-- Descending order on vendor totals (`([, a], [, b]) => b - a`). -/
def vtGE (a b : String × ℚ) : Prop := b.2 ≤ a.2

instance : DecidableRel vtGE :=
  fun a b => inferInstanceAs (Decidable (b.2 ≤ a.2))

instance : IsTotal (String × ℚ) vtGE := ⟨fun a b => le_total b.2 a.2⟩

instance : IsTrans (String × ℚ) vtGE := ⟨fun _ _ _ h1 h2 => le_trans h2 h1⟩

/-- Vendors sorted by descending total. -/
def sortedVendors (transactions : List Transaction) : List (String × ℚ) :=
  List.insertionSort vtGE (vendorTotalsList transactions)

/-- Grand total across all transactions (summed per vendor, as the
source reduces `Object.values(vendorTotals)`). -/
def totalSpending (transactions : List Transaction) : ℚ :=
  (vendorTotalsList transactions).foldl (fun sum g => sum + g.2) 0

/-- `detectVendorConcentration`: at most one anomaly, for the single
top vendor, when its share of all spending exceeds 15%. -/
def detectVendorConcentration (transactions : List Transaction) (startId : Nat) :
    List Anomaly × Nat :=
  match sortedVendors transactions with
  | [] => ([], startId)
  | top :: rest =>
    let grand := totalSpending transactions
    let percentage := top.2 / grand * 100
    if 15 < percentage then
      ([{ id := "anomaly-" ++ toString startId
          type := "vendor_concentration"
          severity := if 25 < percentage then "high" else "medium"
          title := "High Vendor Concentration"
          description := top.1 ++ " receives " ++ jsToFixed percentage 1
            ++ "% of all spending"
          vendor := some top.1
          amount := some top.2
          details := ["Vendor: " ++ top.1,
            "Total received: " ++ formatCurrency top.2,
            "Percentage of total spending: " ++ jsToFixed percentage 1 ++ "%",
            "Total dataset spending: " ++ formatCurrency grand,
            "Top 5 vendors:"]
            ++ (List.zip ((top :: rest).take 5) [1, 2, 3, 4, 5]).map
              (fun vi => "  " ++ toString vi.2 ++ ". " ++ vi.1.1 ++ ": "
                ++ formatCurrency vi.1.2 ++ " ("
                ++ jsToFixed (vi.1.2 / grand * 100) 1 ++ "%)")
          investigationTips :=
            ["High concentration may indicate preferential treatment",
             "Verify competitive bidding was conducted",
             "Check for related party relationships",
             "Review contract award process"] }],
        startId + 1)
    else ([], startId)

/-! ### Orchestration -/

/-- The summary statistics, computed from the final anomaly list
alone. -/
def computeStats (anomalies : List Anomaly) : DetectionStats :=
  { totalAnomalies := anomalies.length
    criticalCount := (anomalies.filter (fun a => decide (a.severity = "critical"))).length
    highCount := (anomalies.filter (fun a => decide (a.severity = "high"))).length
    mediumCount := (anomalies.filter (fun a => decide (a.severity = "medium"))).length
    lowCount := (anomalies.filter (fun a => decide (a.severity = "low"))).length
    totalFlaggedAmount := anomalies.foldl (fun sum a => sum + a.amount.getD 0) 0 }

/-- `analyzeTransactions`: the ten detectors in their fixed order,
sharing one id counter, then the stats over the concatenated list. -/
def analyzeTransactions (transactions : List Transaction) : AnalysisResult :=
  let r1 := analyzeBenfordsLaw transactions 0
  let r2 := detectDuplicatePayments transactions r1.2
  let r3 := detectThresholdAvoidance transactions r2.2
  let r4 := detectRoundNumbers transactions r3.2
  let r5 := detectWeekendPayments transactions r4.2
  let r6 := detectSameDayPayments transactions r5.2
  let r7 := detectAddressRedFlags transactions r6.2
  let r8 := detectHighFrequency transactions r7.2
  let r9 := detectOutliers transactions r8.2
  let r10 := detectVendorConcentration transactions r9.2
  let anomalies := r1.1 ++ r2.1 ++ r3.1 ++ r4.1 ++ r5.1 ++ r6.1
    ++ r7.1 ++ r8.1 ++ r9.1 ++ r10.1
  { anomalies := anomalies, stats := computeStats anomalies }

/-! ### Infrastructure lemmas -/

theorem emitAll_fst_length {α : Type} (mk : Nat → α → Anomaly) (id : Nat)
    (xs : List α) : (emitAll mk id xs).1.length = xs.length := by
  induction xs generalizing id with
  | nil => rfl
  | cons x xs ih => simp [emitAll, ih]

theorem mem_emitAll {α : Type} (mk : Nat → α → Anomaly) (id : Nat)
    (xs : List α) (a : Anomaly) (ha : a ∈ (emitAll mk id xs).1) :
    ∃ i x, x ∈ xs ∧ a = mk i x := by
  induction xs generalizing id with
  | nil => simp [emitAll] at ha
  | cons x xs ih =>
    simp only [emitAll, List.mem_cons] at ha
    rcases ha with h | h
    · exact ⟨id, x, List.mem_cons_self _ _, h⟩
    · obtain ⟨i, y, hy, hya⟩ := ih (id + 1) h
      exact ⟨i, y, List.mem_cons_of_mem _ hy, hya⟩

theorem countP_emitAll {α : Type} (mk : Nat → α → Anomaly) (p : Anomaly → Bool)
    (hp : ∀ i j x, p (mk i x) = p (mk j x)) (id : Nat) (xs : List α) :
    (emitAll mk id xs).1.countP p = xs.countP (fun x => p (mk 0 x)) := by
  induction xs generalizing id with
  | nil => rfl
  | cons x xs ih =>
    simp only [emitAll, List.countP_cons, ih (id + 1)]
    rw [hp id 0 x]

theorem map_emitAll {α β : Type} (mk : Nat → α → Anomaly) (f : Anomaly → β)
    (g : α → β) (h : ∀ i x, f (mk i x) = g x) (id : Nat) (xs : List α) :
    (emitAll mk id xs).1.map f = xs.map g := by
  induction xs generalizing id with
  | nil => rfl
  | cons x xs ih => simp [emitAll, ih (id + 1), h]

theorem mem_firstDedup {α : Type} [DecidableEq α] (l : List α) (a : α) :
    a ∈ firstDedup l ↔ a ∈ l := by
  induction l with
  | nil => simp [firstDedup]
  | cons x xs ih =>
    simp only [firstDedup, List.mem_cons, List.mem_filter, decide_eq_true_eq, ih]
    constructor
    · rintro (rfl | ⟨h, _⟩)
      · exact Or.inl rfl
      · exact Or.inr h
    · rintro (rfl | h)
      · exact Or.inl rfl
      · by_cases hax : a = x
        · exact Or.inl hax
        · exact Or.inr ⟨h, hax⟩

theorem nodup_firstDedup {α : Type} [DecidableEq α] (l : List α) :
    (firstDedup l).Nodup := by
  induction l with
  | nil => simp [firstDedup]
  | cons x xs ih =>
    refine List.Nodup.cons (fun hx => ?_) (ih.filter _)
    exact (of_decide_eq_true (List.mem_filter.mp hx).2) rfl

/-- In a duplicate-free list, counting entries equal to `v` that also
pass `b` gives an indicator. -/
theorem countP_eq_ite_of_nodup {α : Type} [DecidableEq α] (l : List α)
    (hl : l.Nodup) (v : α) (b : α → Bool) :
    l.countP (fun k => decide (k = v) && b k) = if v ∈ l ∧ b v = true then 1 else 0 := by
  induction l with
  | nil => simp
  | cons k l ih =>
    rw [List.nodup_cons] at hl
    rw [List.countP_cons, ih hl.2]
    by_cases hkv : k = v
    · subst hkv
      rw [if_neg (fun h : k ∈ l ∧ b k = true => hl.1 h.1)]
      by_cases hb : b k = true
      · simp [hb]
      · simp [hb]
    · rw [decide_eq_false hkv]
      simp only [Bool.false_and, Bool.false_eq_true, if_false, add_zero, List.mem_cons]
      by_cases hv : v ∈ l ∧ b v = true
      · rw [if_pos hv, if_pos ⟨Or.inr hv.1, hv.2⟩]
      · rw [if_neg hv, if_neg (fun h => hv ⟨h.1.resolve_left (fun h' => hkv h'.symm), h.2⟩)]

theorem countP_filterMap {α β : Type} (f : α → Option β) (p : β → Bool)
    (l : List α) :
    (l.filterMap f).countP p
      = l.countP (fun a => ((f a).map p).getD false) := by
  induction l with
  | nil => rfl
  | cons x l ih =>
    cases hx : f x with
    | none => simp [List.filterMap_cons, hx, List.countP_cons, ih]
    | some y => simp [List.filterMap_cons, hx, List.countP_cons, ih]

theorem foldl_add_eq_sum {α : Type} (g : α → ℚ) (l : List α) (c : ℚ) :
    l.foldl (fun sum x => sum + g x) c = c + (l.map g).sum := by
  induction l generalizing c with
  | nil => simp
  | cons x l ih => simp [ih, add_assoc]

theorem sumAmounts_eq (txns : List Transaction) :
    sumAmounts txns = (txns.map (fun t => t.amount)).sum := by
  simpa using foldl_add_eq_sum (fun t => t.amount) txns 0

/-- The groups of `groupByVendor` are exactly the per-vendor filters,
keyed without duplicates by the vendors that occur. -/
theorem mem_groupByVendor (ts : List Transaction) (g : String × List Transaction)
    (hg : g ∈ groupByVendor ts) :
    g.2 = ts.filter (fun t => decide (t.vendor = g.1)) := by
  obtain ⟨v, _, rfl⟩ := List.mem_map.mp hg
  rfl

theorem countP_groupByVendor_key (ts : List Transaction) (v : String)
    (b : String × List Transaction → Bool) :
    (groupByVendor ts).countP (fun g => decide (g.1 = v) && b g)
      = if v ∈ ts.map (fun t => t.vendor)
            ∧ b (v, ts.filter (fun t => decide (t.vendor = v))) = true
        then 1 else 0 := by
  unfold groupByVendor
  rw [List.countP_map]
  have hfun : ((fun g : String × List Transaction => decide (g.1 = v) && b g)
        ∘ fun k => (k, ts.filter (fun t => decide (t.vendor = k))))
      = fun k => decide (k = v) && b (k, ts.filter (fun t => decide (t.vendor = k))) := rfl
  rw [hfun,
    countP_eq_ite_of_nodup (firstDedup (ts.map (fun t => t.vendor)))
      (nodup_firstDedup _) v
      (fun k => b (k, ts.filter (fun t => decide (t.vendor = k))))]
  simp only [mem_firstDedup]

/-- Counting anomalies of one vendor inside a filtered group emission. -/
theorem countP_emit_groups (ts : List Transaction) (v : String)
    (mk : Nat → String × List Transaction → Anomaly) (id : Nat)
    (Q : String × List Transaction → Bool)
    (hv : ∀ i g, (mk i g).vendor = some g.1) :
    ((emitAll mk id ((groupByVendor ts).filter Q)).1.countP
        (fun a => decide (a.vendor = some v)))
      = if v ∈ ts.map (fun t => t.vendor)
            ∧ Q (v, ts.filter (fun t => decide (t.vendor = v))) = true
        then 1 else 0 := by
  rw [countP_emitAll _ _ (fun i j x => by simp [hv]) id]
  have hstep : ∀ g : String × List Transaction,
      (decide ((mk 0 g).vendor = some v)) = decide (g.1 = v) := by
    intro g
    simp [hv]
  rw [List.countP_filter]
  have : (fun g => decide ((mk 0 g).vendor = some v) && Q g)
      = (fun g : String × List Transaction => decide (g.1 = v) && Q g) := by
    funext g
    rw [hstep]
  rw [this, countP_groupByVendor_key]

/-! ### Quartile index arithmetic -/

theorem floor_half_toNat (n : Nat) : (⌊(n : ℚ) / 2⌋).toNat = n / 2 := by
  have h : (n : ℚ) / 2 = ((n : ℕ) : ℚ) / ((2 : ℕ) : ℚ) := by push_cast; ring
  rw [h, Int.floor_toNat, Nat.floor_div_nat, Nat.floor_natCast]

theorem floor_quarter_toNat (n : Nat) : (⌊(n : ℚ) * 0.25⌋).toNat = n / 4 := by
  have h : (n : ℚ) * 0.25 = ((n : ℕ) : ℚ) / ((4 : ℕ) : ℚ) := by
    push_cast
    norm_num
    ring
  rw [h, Int.floor_toNat, Nat.floor_div_nat, Nat.floor_natCast]

theorem floor_three_quarters_toNat (n : Nat) :
    (⌊(n : ℚ) * 0.75⌋).toNat = 3 * n / 4 := by
  have h : (n : ℚ) * 0.75 = ((3 * n : ℕ) : ℚ) / ((4 : ℕ) : ℚ) := by
    push_cast
    norm_num
    ring
  rw [h, Int.floor_toNat, Nat.floor_div_nat, Nat.floor_natCast]

/-! ### Claims -/

/-- C1: for the empty input sequence, `analyzeTransactions` returns an
empty anomalies list and stats in which `totalAnomalies`,
`criticalCount`, `highCount`, `mediumCount`, `lowCount` and
`totalFlaggedAmount` are all zero. -/
theorem analyzeTransactions_empty :
    analyzeTransactions [] =
      { anomalies := [],
        stats := { totalAnomalies := 0, criticalCount := 0, highCount := 0,
                   mediumCount := 0, lowCount := 0, totalFlaggedAmount := 0 } } := by
  rfl

/-- C2: `analyzeTransactions` is total.  In the embedding every input
yields a result; the two partial operations of the source are safe:
for nonempty input the three quartile indices of the large-outlier
check lie inside the sorted amounts array (whose length is the input
length) and the vendor grouping of the high-frequency check is
nonempty (so its divisor is nonzero), while on empty input both
checks return no anomalies (the path where JavaScript's `NaN`
arithmetic makes every comparison false). -/
theorem analyzeTransactions_total (ts : List Transaction) (h : ts ≠ []) :
    (∃ r : AnalysisResult, analyzeTransactions ts = r)
    ∧ ((⌊(ts.length : ℚ) / 2⌋).toNat < ts.length
        ∧ (⌊(ts.length : ℚ) * 0.25⌋).toNat < ts.length
        ∧ (⌊(ts.length : ℚ) * 0.75⌋).toNat < ts.length)
    ∧ groupByVendor ts ≠ []
    ∧ (sortedAmounts ts).length = ts.length
    ∧ detectOutliers [] 0 = ([], 0)
    ∧ detectHighFrequency [] 0 = ([], 0) := by
  have hn : ts.length ≠ 0 := fun h0 => h (List.eq_nil_of_length_eq_zero h0)
  refine ⟨⟨analyzeTransactions ts, rfl⟩, ⟨?_, ?_, ?_⟩, ?_, ?_, rfl, rfl⟩
  · rw [floor_half_toNat]; omega
  · rw [floor_quarter_toNat]; omega
  · rw [floor_three_quarters_toNat]; omega
  · cases ts with
    | nil => exact absurd rfl h
    | cons t rest => simp [groupByVendor, firstDedup]
  · unfold sortedAmounts
    rw [(List.perm_insertionSort _ _).length_eq, List.length_map]

/-- Witness for C2 at a one-transaction input. -/
def sampleTxn : Transaction :=
  { department := "Dept", vendor := "V", amount := 5, date := "2024-01-03" }

theorem analyzeTransactions_total_witness :
    (∃ r : AnalysisResult, analyzeTransactions [sampleTxn] = r)
    ∧ ((⌊([sampleTxn].length : ℚ) / 2⌋).toNat < [sampleTxn].length
        ∧ (⌊([sampleTxn].length : ℚ) * 0.25⌋).toNat < [sampleTxn].length
        ∧ (⌊([sampleTxn].length : ℚ) * 0.75⌋).toNat < [sampleTxn].length)
    ∧ groupByVendor [sampleTxn] ≠ []
    ∧ (sortedAmounts [sampleTxn]).length = [sampleTxn].length
    ∧ detectOutliers [] 0 = ([], 0)
    ∧ detectHighFrequency [] 0 = ([], 0) :=
  analyzeTransactions_total [sampleTxn] (by simp)

set_option maxHeartbeats 2000000 in
/-- C10: the seven threshold-avoidance windows are `[950, 999]`,
`[2375, 2499]`, `[4750, 4999]`, `[9500, 9999]`, `[23750, 24999]`,
`[47500, 49999]`, `[95000, 99999]`; they are pairwise disjoint, so an
amount lies in at most one threshold's window and the window filters
of two distinct thresholds select disjoint transaction sets — every
transaction contributes to the count and summed amount of at most one
(threshold, vendor) anomaly. -/
theorem threshold_windows_disjoint (θ1 θ2 : ℚ)
    (h1 : θ1 ∈ APPROVAL_THRESHOLDS) (h2 : θ2 ∈ APPROVAL_THRESHOLDS)
    (hne : θ1 ≠ θ2) :
    APPROVAL_THRESHOLDS.map (fun θ => (θ * 0.95, θ - 1))
        = [((950 : ℚ), (999 : ℚ)), (2375, 2499), (4750, 4999), (9500, 9999),
           (23750, 24999), (47500, 49999), (95000, 99999)]
    ∧ (∀ a : ℚ, ¬(nearThresholdWindow θ1 a = true ∧ nearThresholdWindow θ2 a = true))
    ∧ ∀ ts : List Transaction,
        (ts.filter (fun t => nearThresholdWindow θ1 t.amount)).Disjoint
          (ts.filter (fun t => nearThresholdWindow θ2 t.amount)) := by
  have hwin : ∀ a : ℚ,
      ¬(nearThresholdWindow θ1 a = true ∧ nearThresholdWindow θ2 a = true) := by
    rintro a ⟨ha1, ha2⟩
    simp only [nearThresholdWindow, Bool.and_eq_true, decide_eq_true_eq] at ha1 ha2
    obtain ⟨hl1, hu1⟩ := ha1
    obtain ⟨hl2, hu2⟩ := ha2
    unfold APPROVAL_THRESHOLDS at h1 h2
    fin_cases h1 <;> fin_cases h2 <;> first
      | exact hne rfl
      | linarith
  refine ⟨?_, hwin, ?_⟩
  · unfold APPROVAL_THRESHOLDS
    norm_num
  · intro ts t ht1 ht2
    exact hwin t.amount ⟨(List.mem_filter.mp ht1).2, (List.mem_filter.mp ht2).2⟩

/-- Witness for C10 at the 1,000 and 10,000 thresholds. -/
theorem threshold_windows_disjoint_witness :
    APPROVAL_THRESHOLDS.map (fun θ => (θ * 0.95, θ - 1))
        = [((950 : ℚ), (999 : ℚ)), (2375, 2499), (4750, 4999), (9500, 9999),
           (23750, 24999), (47500, 49999), (95000, 99999)]
    ∧ (∀ a : ℚ, ¬(nearThresholdWindow 1000 a = true ∧ nearThresholdWindow 10000 a = true))
    ∧ ∀ ts : List Transaction,
        (ts.filter (fun t => nearThresholdWindow 1000 t.amount)).Disjoint
          (ts.filter (fun t => nearThresholdWindow 10000 t.amount)) :=
  threshold_windows_disjoint 1000 10000
    (by simp [APPROVAL_THRESHOLDS]) (by simp [APPROVAL_THRESHOLDS]) (by norm_num)

/-- C9: the returned stats are derived from the final anomaly list
alone — `totalAnomalies` is its length, each per-severity count is the
number of anomalies with that severity, and `totalFlaggedAmount` is
the plain sum of `anomaly.amount` (absent amounts contribute 0),
with no deduplication across detectors. -/
theorem stats_from_anomalies (ts : List Transaction) :
    (analyzeTransactions ts).stats.totalAnomalies
        = (analyzeTransactions ts).anomalies.length
    ∧ (analyzeTransactions ts).stats.criticalCount
        = (analyzeTransactions ts).anomalies.countP (fun a => decide (a.severity = "critical"))
    ∧ (analyzeTransactions ts).stats.highCount
        = (analyzeTransactions ts).anomalies.countP (fun a => decide (a.severity = "high"))
    ∧ (analyzeTransactions ts).stats.mediumCount
        = (analyzeTransactions ts).anomalies.countP (fun a => decide (a.severity = "medium"))
    ∧ (analyzeTransactions ts).stats.lowCount
        = (analyzeTransactions ts).anomalies.countP (fun a => decide (a.severity = "low"))
    ∧ (analyzeTransactions ts).stats.totalFlaggedAmount
        = ((analyzeTransactions ts).anomalies.map (fun a => a.amount.getD 0)).sum := by
  have hs : (analyzeTransactions ts).stats
      = computeStats (analyzeTransactions ts).anomalies := rfl
  simp only [hs, computeStats]
  refine ⟨trivial, (List.countP_eq_length_filter _ _).symm,
    (List.countP_eq_length_filter _ _).symm, (List.countP_eq_length_filter _ _).symm,
    (List.countP_eq_length_filter _ _).symm, ?_⟩
  have h := foldl_add_eq_sum (fun a : Anomaly => a.amount.getD 0)
    (analyzeTransactions ts).anomalies 0
  rw [zero_add] at h
  exact h

/-- In an ascending sorted list in which at most one element is `≥ c`,
every element except possibly the last is `< c`. -/
theorem sorted_prefix_lt (s : List ℚ) (hs : s.Sorted (· ≤ ·)) (c : ℚ)
    (hc : s.countP (fun a => decide (c ≤ a)) ≤ 1) (i : Nat)
    (hi : i + 2 ≤ s.length) : s.getD i 0 < c := by
  by_contra hge
  push_neg at hge
  have hi1 : i < s.length := by omega
  have hi2 : i + 1 < s.length := by omega
  rw [List.getD_eq_getElem s 0 hi1] at hge
  have hle : s[i] ≤ s[i + 1] :=
    (List.pairwise_iff_getElem.mp hs) i (i + 1) hi1 hi2 (by omega)
  have hdrop2 : (s.drop i).countP (fun a => decide (c ≤ a)) =
      ((s.drop (i + 2)).countP (fun a => decide (c ≤ a))
        + (if decide (c ≤ s[i + 1]) = true then 1 else 0))
        + (if decide (c ≤ s[i]) = true then 1 else 0) := by
    rw [List.drop_eq_getElem_cons hi1, List.drop_eq_getElem_cons hi2,
      List.countP_cons, List.countP_cons]
  have hcount : s.countP (fun a => decide (c ≤ a))
      = (s.take i).countP (fun a => decide (c ≤ a))
        + (s.drop i).countP (fun a => decide (c ≤ a)) := by
    conv_lhs => rw [← List.take_append_drop i s]
    rw [List.countP_append]
  rw [decide_eq_true hge, decide_eq_true (le_trans hge hle)] at hdrop2
  simp only [if_pos] at hdrop2
  omega

/-- C8 (amended): the large-outlier check sorts all amounts ascending,
takes median, Q1 and Q3 at the floored fractional indices, sets the
upper fence to `Q3 + 3*(Q3 - Q1)`, and flags exactly the first 10
transactions in input order whose amount exceeds both the fence and
1,000,000, with severity "critical" exactly above 10,000,000 and
"high" otherwise; and a single $50,000,000 transaction among
nonnegative transactions otherwise under $10,000 is flagged with
severity "critical" provided the input has at least 5 transactions
(for fewer, Q3 itself can be the large amount and the fence exceeds
it, so nothing is flagged — see the counterexample). -/
theorem large_outlier_check (ts : List Transaction) (startId : Nat) :
    ((detectOutliers ts startId).1.map
        (fun a => (a.vendor, a.department, a.amount, a.severity))
      = ((ts.filter (fun t => decide (upperFence ts < t.amount)
            && decide ((1000000 : ℚ) < t.amount))).take 10).map
          (fun t => (some t.vendor, some t.department, some t.amount,
            if (10000000 : ℚ) < t.amount then "critical" else "high")))
    ∧ upperFence ts
        = (sortedAmounts ts).getD ((⌊(ts.length : ℚ) * 0.75⌋).toNat) 0
          + 3 * ((sortedAmounts ts).getD ((⌊(ts.length : ℚ) * 0.75⌋).toNat) 0
            - (sortedAmounts ts).getD ((⌊(ts.length : ℚ) * 0.25⌋).toNat) 0)
    ∧ outlierMedian ts = (sortedAmounts ts).getD ((⌊(ts.length : ℚ) / 2⌋).toNat) 0
    ∧ (sortedAmounts ts).Sorted (· ≤ ·)
    ∧ (sortedAmounts ts).Perm (ts.map (fun t => t.amount))
    ∧ (ts.countP (fun t => decide (t.amount = 50000000)) = 1 →
        (∀ t ∈ ts, t.amount = 50000000 ∨ t.amount < 10000) →
        (∀ t ∈ ts, 0 ≤ t.amount) →
        5 ≤ ts.length →
        (detectOutliers ts startId).1 ≠ []
        ∧ ∀ a ∈ (detectOutliers ts startId).1,
            a.amount = some 50000000 ∧ a.severity = "critical") := by
  have hlen : (sortedAmounts ts).length = ts.length := by
    unfold sortedAmounts
    rw [(List.perm_insertionSort _ _).length_eq, List.length_map]
  have hsorted : (sortedAmounts ts).Sorted (· ≤ ·) :=
    List.sorted_insertionSort _ _
  have hperm : (sortedAmounts ts).Perm (ts.map (fun t => t.amount)) :=
    List.perm_insertionSort _ _
  have hmap : (detectOutliers ts startId).1.map
        (fun a => (a.vendor, a.department, a.amount, a.severity))
      = ((ts.filter (fun t => decide (upperFence ts < t.amount)
            && decide ((1000000 : ℚ) < t.amount))).take 10).map
          (fun t => (some t.vendor, some t.department, some t.amount,
            if (10000000 : ℚ) < t.amount then "critical" else "high")) :=
    map_emitAll (mkOutlierAnomaly (outlierMedian ts)) _ _ (fun i t => rfl) startId _
  have hfence : upperFence ts
      = (sortedAmounts ts).getD ((⌊(ts.length : ℚ) * 0.75⌋).toNat) 0
        + 3 * ((sortedAmounts ts).getD ((⌊(ts.length : ℚ) * 0.75⌋).toNat) 0
          - (sortedAmounts ts).getD ((⌊(ts.length : ℚ) * 0.25⌋).toNat) 0) := by
    simp only [upperFence]
    rw [hlen]
    ring
  have hmed : outlierMedian ts
      = (sortedAmounts ts).getD ((⌊(ts.length : ℚ) / 2⌋).toNat) 0 := by
    simp only [outlierMedian]
    rw [hlen]
  refine ⟨hmap, hfence, hmed, hsorted, hperm, ?_⟩
  intro h1 h2 h3 h4
  have hQmap : (ts.map (fun t => t.amount)).countP (fun a => decide ((10000 : ℚ) ≤ a)) = 1 := by
    rw [List.countP_map, ← h1]
    apply List.countP_congr
    intro t ht
    simp only [Function.comp, decide_eq_true_eq]
    constructor
    · intro hge
      rcases h2 t ht with he | hlt
      · exact he
      · exact absurd hge (by linarith)
    · intro he
      rw [he]
      norm_num
  have hs1 : (sortedAmounts ts).countP (fun a => decide ((10000 : ℚ) ≤ a)) = 1 :=
    (hperm.countP_eq _).trans hQmap
  have e75 : (⌊(ts.length : ℚ) * 0.75⌋).toNat = 3 * ts.length / 4 :=
    floor_three_quarters_toNat _
  have e25 : (⌊(ts.length : ℚ) * 0.25⌋).toNat = ts.length / 4 :=
    floor_quarter_toNat _
  have hA : (sortedAmounts ts).getD ((⌊(ts.length : ℚ) * 0.75⌋).toNat) 0 < 10000 := by
    apply sorted_prefix_lt _ hsorted _ (le_of_eq hs1)
    rw [hlen, e75]
    omega
  have hB0 : 0 ≤ (sortedAmounts ts).getD ((⌊(ts.length : ℚ) * 0.25⌋).toNat) 0 := by
    have hid : (⌊(ts.length : ℚ) * 0.25⌋).toNat < (sortedAmounts ts).length := by
      rw [hlen, e25]
      omega
    rw [List.getD_eq_getElem _ _ hid]
    have hmem : (sortedAmounts ts)[(⌊(ts.length : ℚ) * 0.25⌋).toNat] ∈ ts.map (fun t => t.amount) :=
      (hperm.mem_iff).mp (List.getElem_mem hid)
    obtain ⟨t, ht, hte⟩ := List.mem_map.mp hmem
    rw [← hte]
    exact h3 t ht
  have hfence_lt : upperFence ts < 1000000 := by
    rw [hfence]
    linarith
  have hcond : ∀ t ∈ ts,
      ((decide (upperFence ts < t.amount) && decide ((1000000 : ℚ) < t.amount)) = true
        ↔ t.amount = 50000000) := by
    intro t ht
    simp only [Bool.and_eq_true, decide_eq_true_eq]
    constructor
    · rintro ⟨_, hgt⟩
      rcases h2 t ht with he | hlt
      · exact he
      · linarith
    · intro he
      rw [he]
      constructor
      · linarith
      · norm_num
  have hne : ts.filter (fun t => decide (upperFence ts < t.amount)
      && decide ((1000000 : ℚ) < t.amount)) ≠ [] := by
    have hpos : 0 < ts.countP (fun t => decide (t.amount = 50000000)) := by omega
    obtain ⟨t, ht, hte⟩ := List.countP_pos_iff.mp hpos
    exact List.ne_nil_of_mem (List.mem_filter.mpr
      ⟨ht, (hcond t ht).mpr (of_decide_eq_true hte)⟩)
  constructor
  · intro hout
    rw [hout] at hmap
    have := List.map_eq_nil_iff.mp hmap.symm
    rcases List.take_eq_nil_iff.mp this with h | h
    · omega
    · exact hne h
  · intro a ha
    have hmem : (a.vendor, a.department, a.amount, a.severity)
        ∈ ((ts.filter (fun t => decide (upperFence ts < t.amount)
            && decide ((1000000 : ℚ) < t.amount))).take 10).map
          (fun t => (some t.vendor, some t.department, some t.amount,
            if (10000000 : ℚ) < t.amount then "critical" else "high")) := by
      rw [← hmap]
      exact List.mem_map_of_mem _ ha
    obtain ⟨t, htmem, hte⟩ := List.mem_map.mp hmem
    have ht5 : t.amount = 50000000 := by
      have htin : t ∈ ts.filter (fun t => decide (upperFence ts < t.amount)
          && decide ((1000000 : ℚ) < t.amount)) := List.take_subset _ _ htmem
      exact (hcond t (List.mem_filter.mp htin).1).mp (List.mem_filter.mp htin).2
    rw [ht5] at hte
    rw [if_pos (by norm_num : (10000000 : ℚ) < 50000000)] at hte
    have ham := congrArg
      (fun p : Option String × Option String × Option ℚ × String => p.2.2.1) hte
    have hsev := congrArg
      (fun p : Option String × Option String × Option ℚ × String => p.2.2.2) hte
    simp only at ham hsev
    exact ⟨ham.symm, hsev.symm⟩

/-- Counterexample to C8 as stated: with only one other transaction
($5,000), the $50,000,000 payment is Q3 itself, the fence lands above
it, and the large-outlier check emits nothing. -/
theorem large_outlier_scenario_counterexample :
    (detectOutliers
        [{ department := "Dept", vendor := "A", amount := 5000, date := "2024-01-06" },
         { department := "Dept", vendor := "B", amount := 50000000, date := "2024-01-07" }] 0).1
      = [] := by
  have hs : sortedAmounts
      [{ department := "Dept", vendor := "A", amount := 5000, date := "2024-01-06" },
       { department := "Dept", vendor := "B", amount := 50000000, date := "2024-01-07" }]
      = [5000, 50000000] := by
    simp only [sortedAmounts, List.map, List.insertionSort, List.orderedInsert]
    norm_num
  have hf : upperFence
      [{ department := "Dept", vendor := "A", amount := 5000, date := "2024-01-06" },
       { department := "Dept", vendor := "B", amount := 50000000, date := "2024-01-07" }]
      = 199985000 := by
    simp only [upperFence, hs]
    norm_num
  simp only [detectOutliers, hf]
  norm_num
  rfl

theorem countP_foldl_batches {β : Type} (f : β → Nat → List Anomaly × Nat)
    (p : Anomaly → Bool)
    (hf : ∀ b i, ((f b i).1).countP p = ((f b 0).1).countP p)
    (l : List β) (acc : List Anomaly × Nat) :
    ((l.foldl (fun acc b => let r := f b acc.2; (acc.1 ++ r.1, r.2)) acc).1).countP p
      = acc.1.countP p + (l.map (fun b => ((f b 0).1).countP p)).sum := by
  induction l generalizing acc with
  | nil => simp
  | cons b l ih =>
    rw [List.foldl_cons, ih]
    simp only [List.countP_append, List.map_cons, List.sum_cons, hf b acc.2]
    omega

theorem threshold_avoidance_for_countP (ts : List Transaction) (θ : ℚ)
    (v : String) (i : Nat) :
    (detectThresholdAvoidanceFor ts θ i).1.countP (fun a => decide (a.vendor = some v))
      = if 3 ≤ (ts.filter (fun t => nearThresholdWindow θ t.amount
            && decide (t.vendor = v))).length then 1 else 0 := by
  unfold detectThresholdAvoidanceFor
  rw [countP_emit_groups _ v _ i _ (fun i g => rfl)]
  rw [List.filter_filter]
  have hlist : List.filter (fun a => decide (a.vendor = v)
        && nearThresholdWindow θ a.amount) ts
      = List.filter (fun t => nearThresholdWindow θ t.amount
        && decide (t.vendor = v)) ts :=
    List.filter_congr (fun a _ => Bool.and_comm _ _)
  rw [hlist]
  by_cases h3 : 3 ≤ (ts.filter (fun t => nearThresholdWindow θ t.amount
      && decide (t.vendor = v))).length
  · rw [if_pos h3, if_pos]
    refine ⟨?_, decide_eq_true h3⟩
    have hnil : ts.filter (fun t => nearThresholdWindow θ t.amount
        && decide (t.vendor = v)) ≠ [] := by
      intro hnil
      rw [hnil] at h3
      simp at h3
    obtain ⟨t, ht⟩ := List.exists_mem_of_ne_nil _ hnil
    rw [List.mem_filter, Bool.and_eq_true] at ht
    exact List.mem_map.mpr ⟨t, List.mem_filter.mpr ⟨ht.1, ht.2.1⟩, of_decide_eq_true ht.2.2⟩
  · rw [if_neg h3, if_neg]
    rintro ⟨_, hq⟩
    exact h3 (of_decide_eq_true hq)

/-- C4: for each threshold and vendor, the threshold-avoidance check
emits exactly one anomaly per (threshold, vendor) pair whose window
`[threshold*0.95, threshold-1]` holds at least 3 of the vendor's
transactions and none otherwise: the whole check's anomaly count for a
vendor is the sum over thresholds of these indicators, the
per-threshold loop body emits the indicator, and each emitted anomaly
carries severity "critical" exactly when the window count is at least
5 ("high" otherwise), amount equal to the sum of the window amounts,
and the window count. -/
theorem threshold_avoidance_per_vendor (ts : List Transaction) (startId : Nat)
    (θ : ℚ) (hθ : θ ∈ APPROVAL_THRESHOLDS) (v : String) :
    ((detectThresholdAvoidance ts startId).1.countP (fun a => decide (a.vendor = some v))
      = (APPROVAL_THRESHOLDS.map (fun t' =>
          if 3 ≤ (ts.filter (fun t => nearThresholdWindow t' t.amount
              && decide (t.vendor = v))).length then 1 else 0)).sum)
    ∧ ((detectThresholdAvoidanceFor ts θ startId).1.countP
          (fun a => decide (a.vendor = some v))
        = if 3 ≤ (ts.filter (fun t => nearThresholdWindow θ t.amount
              && decide (t.vendor = v))).length then 1 else 0)
    ∧ ∀ a ∈ (detectThresholdAvoidanceFor ts θ startId).1, a.vendor = some v →
        a.severity = (if 5 ≤ (ts.filter (fun t => nearThresholdWindow θ t.amount
              && decide (t.vendor = v))).length then "critical" else "high")
        ∧ a.amount = some (((ts.filter (fun t => nearThresholdWindow θ t.amount
              && decide (t.vendor = v))).map (fun t => t.amount)).sum)
        ∧ a.count = some (ts.filter (fun t => nearThresholdWindow θ t.amount
              && decide (t.vendor = v))).length := by
  refine ⟨?_, threshold_avoidance_for_countP ts θ v startId, ?_⟩
  · unfold detectThresholdAvoidance
    rw [countP_foldl_batches (fun t' i => detectThresholdAvoidanceFor ts t' i)
      _ (fun t' i => (threshold_avoidance_for_countP ts t' v i).trans
          (threshold_avoidance_for_countP ts t' v 0).symm)]
    simp only [List.countP_nil, Nat.zero_add]
    have hmapeq : (fun t' => ((detectThresholdAvoidanceFor ts t' 0).1.countP
          (fun a => decide (a.vendor = some v))))
        = (fun t' => if 3 ≤ (ts.filter (fun t => nearThresholdWindow t' t.amount
            && decide (t.vendor = v))).length then 1 else 0) :=
      funext (fun t' => threshold_avoidance_for_countP ts t' v 0)
    rw [hmapeq]
  · intro a ha hv
    obtain ⟨i, g, hg, rfl⟩ := mem_emitAll _ _ _ _ ha
    rw [List.mem_filter] at hg
    have hkey : g.2 = (ts.filter (fun t => nearThresholdWindow θ t.amount)).filter
        (fun t => decide (t.vendor = g.1)) := mem_groupByVendor _ _ hg.1
    have hg1 : g.1 = v := by
      have h' : some g.1 = some v := hv
      exact Option.some_inj.mp h'
    have hg2 : g.2 = ts.filter (fun t => nearThresholdWindow θ t.amount
        && decide (t.vendor = v)) := by
      rw [hkey, hg1, List.filter_filter]
      exact List.filter_congr (fun a _ => Bool.and_comm _ _)
    simp only [mkThresholdAnomaly]
    rw [hg2, sumAmounts_eq]
    exact ⟨rfl, rfl, rfl⟩

theorem round_numbers_for_countP (ts : List Transaction) (p : RoundPattern)
    (v : String) (i : Nat) :
    (detectRoundNumbersFor ts p i).1.countP (fun a => decide (a.vendor = some v))
      = if 4 ≤ (ts.filter (fun t => (decide (p.minAmount ≤ t.amount)
              && isExactMultiple t.amount p.divisor) && decide (t.vendor = v))).length
          ∧ 50 < ((ts.filter (fun t => (decide (p.minAmount ≤ t.amount)
              && isExactMultiple t.amount p.divisor) && decide (t.vendor = v))).length : ℚ)
              / (totalForVendor ts v : ℚ) * 100
        then 1 else 0 := by
  unfold detectRoundNumbersFor
  rw [countP_emit_groups _ v _ i _ (fun i g => rfl)]
  unfold roundMatches
  rw [List.filter_filter]
  have hlist : List.filter (fun a => decide (a.vendor = v)
        && (decide (p.minAmount ≤ a.amount) && isExactMultiple a.amount p.divisor)) ts
      = List.filter (fun t => (decide (p.minAmount ≤ t.amount)
        && isExactMultiple t.amount p.divisor) && decide (t.vendor = v)) ts :=
    List.filter_congr (fun a _ => Bool.and_comm _ _)
  rw [hlist]
  by_cases hc : 4 ≤ (ts.filter (fun t => (decide (p.minAmount ≤ t.amount)
          && isExactMultiple t.amount p.divisor) && decide (t.vendor = v))).length
      ∧ 50 < ((ts.filter (fun t => (decide (p.minAmount ≤ t.amount)
          && isExactMultiple t.amount p.divisor) && decide (t.vendor = v))).length : ℚ)
          / (totalForVendor ts v : ℚ) * 100
  · rw [if_pos hc, if_pos]
    refine ⟨?_, ?_⟩
    · have hnil : ts.filter (fun t => (decide (p.minAmount ≤ t.amount)
          && isExactMultiple t.amount p.divisor) && decide (t.vendor = v)) ≠ [] := by
        intro hnil
        rw [hnil] at hc
        simp at hc
      obtain ⟨t, ht⟩ := List.exists_mem_of_ne_nil _ hnil
      rw [List.mem_filter, Bool.and_eq_true] at ht
      exact List.mem_map.mpr ⟨t, List.mem_filter.mpr ⟨ht.1, ht.2.1⟩,
        of_decide_eq_true ht.2.2⟩
    · rw [Bool.and_eq_true]
      exact ⟨decide_eq_true hc.1, decide_eq_true hc.2⟩
  · rw [if_neg hc, if_neg]
    rintro ⟨_, hq⟩
    rw [Bool.and_eq_true] at hq
    exact hc ⟨of_decide_eq_true hq.1, of_decide_eq_true hq.2⟩

/-- C5: for each round-number pattern and vendor, the round-number
check emits an anomaly if and only if the vendor has at least 4
transactions with amount at least the pattern minimum and exactly
divisible by the divisor AND those matches are strictly more than 50%
of the vendor's transactions (so never at exactly 50% or below), with
severity "high" exactly when the match count is at least 10 and
"medium" otherwise; the whole check's count for a vendor is the sum of
the per-pattern indicators. -/
theorem round_numbers_per_vendor (ts : List Transaction) (startId : Nat)
    (p : RoundPattern) (hp : p ∈ roundPatterns) (v : String) :
    ((detectRoundNumbers ts startId).1.countP (fun a => decide (a.vendor = some v))
      = (roundPatterns.map (fun q =>
          if 4 ≤ (ts.filter (fun t => (decide (q.minAmount ≤ t.amount)
              && isExactMultiple t.amount q.divisor) && decide (t.vendor = v))).length
            ∧ 50 < ((ts.filter (fun t => (decide (q.minAmount ≤ t.amount)
              && isExactMultiple t.amount q.divisor) && decide (t.vendor = v))).length : ℚ)
                / (totalForVendor ts v : ℚ) * 100
          then 1 else 0)).sum)
    ∧ ((detectRoundNumbersFor ts p startId).1.countP (fun a => decide (a.vendor = some v))
      = if 4 ≤ (ts.filter (fun t => (decide (p.minAmount ≤ t.amount)
              && isExactMultiple t.amount p.divisor) && decide (t.vendor = v))).length
          ∧ 50 < ((ts.filter (fun t => (decide (p.minAmount ≤ t.amount)
              && isExactMultiple t.amount p.divisor) && decide (t.vendor = v))).length : ℚ)
              / (totalForVendor ts v : ℚ) * 100
        then 1 else 0)
    ∧ ∀ a ∈ (detectRoundNumbersFor ts p startId).1, a.vendor = some v →
        a.severity = (if 10 ≤ (ts.filter (fun t => (decide (p.minAmount ≤ t.amount)
              && isExactMultiple t.amount p.divisor) && decide (t.vendor = v))).length
          then "high" else "medium")
        ∧ a.count = some (ts.filter (fun t => (decide (p.minAmount ≤ t.amount)
              && isExactMultiple t.amount p.divisor) && decide (t.vendor = v))).length := by
  refine ⟨?_, round_numbers_for_countP ts p v startId, ?_⟩
  · unfold detectRoundNumbers
    rw [countP_foldl_batches (fun q i => detectRoundNumbersFor ts q i)
      _ (fun q i => (round_numbers_for_countP ts q v i).trans
          (round_numbers_for_countP ts q v 0).symm)]
    simp only [List.countP_nil, Nat.zero_add]
    have hmapeq : (fun q => ((detectRoundNumbersFor ts q 0).1.countP
          (fun a => decide (a.vendor = some v))))
        = (fun q : RoundPattern =>
          if 4 ≤ (ts.filter (fun t => (decide (q.minAmount ≤ t.amount)
              && isExactMultiple t.amount q.divisor) && decide (t.vendor = v))).length
            ∧ 50 < ((ts.filter (fun t => (decide (q.minAmount ≤ t.amount)
              && isExactMultiple t.amount q.divisor) && decide (t.vendor = v))).length : ℚ)
                / (totalForVendor ts v : ℚ) * 100
          then 1 else 0) :=
      funext (fun q => round_numbers_for_countP ts q v 0)
    rw [hmapeq]
  · intro a ha hv
    obtain ⟨i, g, hg, rfl⟩ := mem_emitAll _ _ _ _ ha
    rw [List.mem_filter] at hg
    have hkey : g.2 = (roundMatches ts p).filter (fun t => decide (t.vendor = g.1)) :=
      mem_groupByVendor _ _ hg.1
    have hg1 : g.1 = v := by
      have h' : some g.1 = some v := hv
      exact Option.some_inj.mp h'
    have hg2 : g.2 = ts.filter (fun t => (decide (p.minAmount ≤ t.amount)
        && isExactMultiple t.amount p.divisor) && decide (t.vendor = v)) := by
      rw [hkey, hg1]
      unfold roundMatches
      rw [List.filter_filter]
      exact List.filter_congr (fun a _ => Bool.and_comm _ _)
    simp only [mkRoundAnomaly]
    rw [hg2]
    exact ⟨rfl, rfl⟩


theorem vendor_mem_of_filter_ne_nil (l : List Transaction) (v : String)
    (h : l.filter (fun t => decide (t.vendor = v)) ≠ []) :
    v ∈ l.map (fun t => t.vendor) := by
  obtain ⟨t, ht⟩ := List.exists_mem_of_ne_nil _ h
  rw [List.mem_filter] at ht
  exact List.mem_map.mpr ⟨t, ht.1, of_decide_eq_true ht.2⟩

theorem redFlagSelect_pred (v : String) (g : String × List Transaction) :
    (((redFlagSelect g).map
        (fun x => decide ((mkRedFlagAnomaly 0 x).vendor = some v))).getD false)
      = (decide (g.1 = v)
          && (decide (50000 ≤ sumAmounts g.2)
            && (doubleLLCPattern g.1 || acronymPattern g.1 || genericNamePattern g.1))) := by
  unfold redFlagSelect
  by_cases hsum : sumAmounts g.2 < 50000
  · rw [if_pos hsum]
    have : decide (50000 ≤ sumAmounts g.2) = false := by
      simp only [decide_eq_false_iff_not, not_le]
      exact hsum
    simp [this]
  · rw [if_neg hsum]
    have hge : decide (50000 ≤ sumAmounts g.2) = true := by
      simp only [decide_eq_true_eq]
      exact le_of_not_lt hsum
    cases hfind : suspiciousPatterns.find? (fun pr => pr.1 g.1) with
    | none =>
      have hall := List.find?_eq_none.mp hfind
      have h1 : doubleLLCPattern g.1 = false := by
        have := hall (doubleLLCPattern, "Double LLC") (by simp [suspiciousPatterns])
        simpa using this
      have h2 : acronymPattern g.1 = false := by
        have := hall (acronymPattern, "Acronym company") (by simp [suspiciousPatterns])
        simpa using this
      have h3 : genericNamePattern g.1 = false := by
        have := hall (genericNamePattern, "Generic business name") (by simp [suspiciousPatterns])
        simpa using this
      simp [h1, h2, h3]
    | some pr =>
      have hor : (doubleLLCPattern g.1 || acronymPattern g.1 || genericNamePattern g.1)
          = true := by
        have hmem := List.mem_of_find?_eq_some hfind
        have hpr := List.find?_some hfind
        simp only [suspiciousPatterns, List.mem_cons, List.mem_singleton] at hmem
        simp only [Bool.or_eq_true]
        rcases hmem with h | h | h | h
        · rw [h] at hpr
          exact Or.inl (Or.inl hpr)
        · rw [h] at hpr
          exact Or.inl (Or.inr hpr)
        · rw [h] at hpr
          exact Or.inr hpr
        · simp at h
      simp only [Option.map_some', Option.getD_some, hor, hge, Bool.and_true]
      rw [show (mkRedFlagAnomaly 0 (g, pr)).vendor = some g.1 from rfl]
      exact decide_eq_decide.mpr Option.some_inj

/-- C6: the vendor-name red-flag check considers exactly the vendors
whose aggregate total across the whole input is at least 50,000: for a
vendor it emits one anomaly exactly when that holds and some pattern
matches (so at most one anomaly per vendor), the anomaly's title is
tagged with the first matching pattern in the fixed priority order
Double LLC, then Acronym company, then Generic business name, and its
severity is "medium" exactly when the vendor total exceeds 500,000 and
"low" otherwise. -/
theorem vendor_name_red_flags (ts : List Transaction) (startId : Nat) (v : String) :
    ((detectAddressRedFlags ts startId).1.countP (fun a => decide (a.vendor = some v))
      = if 50000 ≤ ((ts.filter (fun t => decide (t.vendor = v))).map (fun t => t.amount)).sum
          ∧ (doubleLLCPattern v || acronymPattern v || genericNamePattern v) = true
        then 1 else 0)
    ∧ ∀ a ∈ (detectAddressRedFlags ts startId).1, a.vendor = some v →
        a.title = "Vendor Name Red Flag: "
          ++ (if doubleLLCPattern v then "Double LLC"
              else if acronymPattern v then "Acronym company"
              else "Generic business name")
        ∧ a.severity = (if 500000 <
              ((ts.filter (fun t => decide (t.vendor = v))).map (fun t => t.amount)).sum
            then "medium" else "low") := by
  constructor
  · unfold detectAddressRedFlags
    rw [countP_emitAll mkRedFlagAnomaly (fun a => decide (a.vendor = some v))
      (fun i j x => rfl) startId]
    rw [countP_filterMap]
    rw [List.countP_congr (fun g _ => by rw [redFlagSelect_pred v g] :
      ∀ g ∈ groupByVendor ts,
        (((redFlagSelect g).map
          (fun x => decide ((mkRedFlagAnomaly 0 x).vendor = some v))).getD false) = true
        ↔ (decide (g.1 = v) && (decide (50000 ≤ sumAmounts g.2)
            && (doubleLLCPattern g.1 || acronymPattern g.1 || genericNamePattern g.1)))
          = true)]
    rw [countP_groupByVendor_key ts v (fun g => decide (50000 ≤ sumAmounts g.2)
      && (doubleLLCPattern g.1 || acronymPattern g.1 || genericNamePattern g.1))]
    by_cases hcond : 50000 ≤
        ((ts.filter (fun t => decide (t.vendor = v))).map (fun t => t.amount)).sum
        ∧ (doubleLLCPattern v || acronymPattern v || genericNamePattern v) = true
    · rw [if_pos hcond, if_pos]
      refine ⟨?_, ?_⟩
      · apply vendor_mem_of_filter_ne_nil
        intro hnil
        have h1 := hcond.1
        rw [hnil] at h1
        norm_num at h1
      · rw [Bool.and_eq_true]
        constructor
        · exact decide_eq_true (by rw [sumAmounts_eq]; exact hcond.1)
        · exact hcond.2
    · rw [if_neg hcond, if_neg]
      rintro ⟨hmem, hb⟩
      rw [Bool.and_eq_true] at hb
      refine hcond ⟨?_, hb.2⟩
      have := of_decide_eq_true hb.1
      rw [sumAmounts_eq] at this
      exact this
  · intro a ha hv
    obtain ⟨i, x, hx, rfl⟩ := mem_emitAll _ _ _ _ ha
    obtain ⟨g, hgmem, hFg⟩ := List.mem_filterMap.mp hx
    unfold redFlagSelect at hFg
    by_cases hsum : sumAmounts g.2 < 50000
    · rw [if_pos hsum] at hFg
      exact absurd hFg (by simp)
    · rw [if_neg hsum] at hFg
      cases hfind : suspiciousPatterns.find? (fun pr => pr.1 g.1) with
      | none =>
        rw [hfind] at hFg
        exact absurd hFg (by simp)
      | some pr =>
        rw [hfind] at hFg
        have hx' : x = (g, pr) := by
          have := hFg
          simp only [Option.some_inj] at this
          exact this.symm
        subst hx'
        have hg1 : g.1 = v := by
          have h' : some g.1 = some v := hv
          exact Option.some_inj.mp h'
        have hcl : g.2 = ts.filter (fun t => decide (t.vendor = v)) := by
          rw [mem_groupByVendor _ _ hgmem, hg1]
        rw [hg1] at hfind
        constructor
        · show "Vendor Name Red Flag: " ++ pr.2 = _
          by_cases h1 : doubleLLCPattern v
          · have : pr = (doubleLLCPattern, "Double LLC") := by
              rw [show suspiciousPatterns.find? (fun pr => pr.1 v)
                  = some (doubleLLCPattern, "Double LLC") from by
                simp [suspiciousPatterns, List.find?, h1]] at hfind
              exact (Option.some_inj.mp hfind).symm
            rw [this, if_pos h1]
          · by_cases h2 : acronymPattern v
            · have : pr = (acronymPattern, "Acronym company") := by
                rw [show suspiciousPatterns.find? (fun pr => pr.1 v)
                    = some (acronymPattern, "Acronym company") from by
                  simp [suspiciousPatterns, List.find?, h1, h2]] at hfind
                exact (Option.some_inj.mp hfind).symm
              rw [this, if_neg h1, if_pos h2]
            · by_cases h3 : genericNamePattern v
              · have : pr = (genericNamePattern, "Generic business name") := by
                  rw [show suspiciousPatterns.find? (fun pr => pr.1 v)
                      = some (genericNamePattern, "Generic business name") from by
                    simp [suspiciousPatterns, List.find?, h1, h2, h3]] at hfind
                  exact (Option.some_inj.mp hfind).symm
                rw [this, if_neg h1, if_neg h2]
              · rw [show suspiciousPatterns.find? (fun pr => pr.1 v) = none from by
                  simp [suspiciousPatterns, List.find?, h1, h2, h3]] at hfind
                exact absurd hfind (by simp)
        · show (if 500000 < sumAmounts g.2 then "medium" else "low") = _
          rw [hcl, sumAmounts_eq]

theorem sum_map_filter_split {α : Type} (f : α → ℚ) (p : α → Bool) (l : List α) :
    ((l.filter p).map f).sum + ((l.filter (fun a => !p a)).map f).sum
      = (l.map f).sum := by
  induction l with
  | nil => simp
  | cons a l ih =>
    by_cases h : p a = true
    · simp only [List.filter_cons, h, if_pos, Bool.not_true, List.map_cons, List.sum_cons]
      simp only [Bool.false_eq_true, if_false]
      linarith [ih]
    · rw [Bool.not_eq_true] at h
      simp only [List.filter_cons, h, Bool.not_false, Bool.false_eq_true, if_false,
        if_pos, List.map_cons, List.sum_cons]
      linarith [ih]

theorem sum_filter_partition (l : List Transaction) (ks : List String)
    (hnd : ks.Nodup) (hcov : ∀ t ∈ l, t.vendor ∈ ks) :
    (ks.map (fun v =>
        ((l.filter (fun t => decide (t.vendor = v))).map (fun t => t.amount)).sum)).sum
      = (l.map (fun t => t.amount)).sum := by
  induction ks generalizing l with
  | nil =>
    cases l with
    | nil => simp
    | cons t l => exact absurd (hcov t (List.mem_cons_self t l)) (List.not_mem_nil _)
  | cons k ks ih =>
    rw [List.nodup_cons] at hnd
    rw [List.map_cons, List.sum_cons]
    have hsplit := sum_map_filter_split (fun t => t.amount)
      (fun t => decide (t.vendor = k)) l
    set l' := l.filter (fun t => !decide (t.vendor = k)) with hl'
    have hks : ∀ v ∈ ks,
        l.filter (fun t => decide (t.vendor = v))
          = l'.filter (fun t => decide (t.vendor = v)) := by
      intro v hv
      rw [hl', List.filter_filter]
      apply List.filter_congr
      intro t _
      by_cases htv : t.vendor = v
      · have hvk : ¬v = k := fun hvk => hnd.1 (hvk ▸ hv)
        have hdk : decide (t.vendor = k) = false := by
          simp only [decide_eq_false_iff_not]
          rw [htv]
          exact hvk
        simp [htv, hdk, hvk]
      · simp [htv]
    have hmapeq : ks.map (fun v =>
          ((l.filter (fun t => decide (t.vendor = v))).map (fun t => t.amount)).sum)
        = ks.map (fun v =>
          ((l'.filter (fun t => decide (t.vendor = v))).map (fun t => t.amount)).sum) := by
      apply List.map_congr_left
      intro v hv
      rw [hks v hv]
    rw [hmapeq, ih l' hnd.2 ?_]
    · linarith [hsplit]
    · intro t ht
      rw [hl', List.mem_filter] at ht
      have hne : ¬t.vendor = k := by simpa using ht.2
      rcases List.mem_cons.mp (hcov t ht.1) with h | h
      · exact absurd h hne
      · exact h

theorem totalSpending_eq (ts : List Transaction) :
    totalSpending ts = (ts.map (fun t => t.amount)).sum := by
  have h0 : totalSpending ts = ((vendorTotalsList ts).map (fun g => g.2)).sum := by
    unfold totalSpending
    have h := foldl_add_eq_sum (fun g : String × ℚ => g.2) (vendorTotalsList ts) 0
    rw [zero_add] at h
    exact h
  have h1 : (vendorTotalsList ts).map (fun g => g.2)
      = (firstDedup (ts.map (fun t => t.vendor))).map (fun v =>
          ((ts.filter (fun t => decide (t.vendor = v))).map (fun t => t.amount)).sum) := by
    unfold vendorTotalsList groupByVendor
    rw [List.map_map, List.map_map]
    apply List.map_congr_left
    intro v _
    simp only [Function.comp]
    rw [sumAmounts_eq]
  rw [h0, h1]
  exact sum_filter_partition ts _ (nodup_firstDedup _)
    (fun t ht => (mem_firstDedup _ _).mpr (List.mem_map_of_mem _ ht))

theorem sortedVendors_eq_nil_iff (ts : List Transaction) :
    sortedVendors ts = [] ↔ ts = [] := by
  constructor
  · intro h
    cases ts with
    | nil => rfl
    | cons t r =>
      have hlen : (sortedVendors (t :: r)).length = (vendorTotalsList (t :: r)).length :=
        (List.perm_insertionSort _ _).length_eq
      rw [h] at hlen
      simp only [List.length_nil] at hlen
      have : (vendorTotalsList (t :: r)).length
          = (firstDedup ((t :: r).map (fun t => t.vendor))).length := by
        unfold vendorTotalsList groupByVendor
        rw [List.length_map, List.length_map]
      rw [this] at hlen
      simp [firstDedup] at hlen
  · rintro rfl
    rfl

/-- C7: the vendor-concentration check emits at most one anomaly, and
exactly one when the input is nonempty and the top vendor's share of
grand-total spending (which equals the sum of all transaction amounts)
strictly exceeds 15%; the emitted anomaly names only the single
largest vendor (its total is maximal among all vendor totals) and has
severity "high" exactly when that share exceeds 25%, else "medium". -/
theorem vendor_concentration_single (ts : List Transaction) (startId : Nat) :
    (detectVendorConcentration ts startId).1.length ≤ 1
    ∧ ((detectVendorConcentration ts startId).1 ≠ [] ↔
        ts ≠ [] ∧ 15 < ((sortedVendors ts).headD ("", 0)).2 / totalSpending ts * 100)
    ∧ totalSpending ts = (ts.map (fun t => t.amount)).sum
    ∧ ∀ a ∈ (detectVendorConcentration ts startId).1,
        a.vendor = some ((sortedVendors ts).headD ("", 0)).1
        ∧ (∀ w ∈ vendorTotalsList ts, w.2 ≤ ((sortedVendors ts).headD ("", 0)).2)
        ∧ a.severity = (if 25 < ((sortedVendors ts).headD ("", 0)).2
              / totalSpending ts * 100
            then "high" else "medium") := by
  have hsorted : (sortedVendors ts).Sorted vtGE := List.sorted_insertionSort _ _
  unfold detectVendorConcentration
  split
  next heq =>
    have hts : ts = [] := (sortedVendors_eq_nil_iff ts).mp heq
    refine ⟨by simp, ?_, totalSpending_eq ts, by simp⟩
    subst hts
    simp
  next top rest heq =>
    have hts : ts ≠ [] := by
      intro h
      rw [(sortedVendors_eq_nil_iff ts).mpr h] at heq
      exact List.noConfusion heq
    rw [heq] at hsorted
    rw [heq, List.headD_cons]
    by_cases hpct : 15 < top.2 / totalSpending ts * 100
    · rw [if_pos hpct]
      refine ⟨by simp, iff_of_true (by simp) ⟨hts, hpct⟩, totalSpending_eq ts, ?_⟩
      intro a ha
      rw [List.mem_singleton] at ha
      subst ha
      refine ⟨rfl, ?_, rfl⟩
      intro w hw
      have hwmem : w ∈ sortedVendors ts :=
        ((List.perm_insertionSort vtGE (vendorTotalsList ts)).mem_iff).mpr hw
      rw [heq] at hwmem
      rcases List.mem_cons.mp hwmem with h | h
      · rw [h]
      · exact (List.sorted_cons.mp hsorted).1 w h
    · rw [if_neg hpct]
      refine ⟨by simp, iff_of_false (by simp) (fun h => hpct h.2),
        totalSpending_eq ts, by simp⟩

theorem benfordDeviations_ne_nil_iff (amounts : List ℚ) :
    benfordDeviations amounts ≠ [] ↔ ∃ d ∈ benfordDigits,
      0.05 < |((digitCount amounts d : ℚ) / (amounts.length : ℚ)) - BENFORD_EXPECTED d| := by
  unfold benfordDeviations
  rw [Ne, List.filterMap_eq_nil_iff]
  push_neg
  constructor
  · rintro ⟨d, hd, hne⟩
    refine ⟨d, hd, ?_⟩
    by_contra hnot
    exact hne (if_neg hnot)
  · rintro ⟨d, hd, hgt⟩
    refine ⟨d, hd, ?_⟩
    rw [if_pos hgt]
    simp

theorem benford_any_iff (amounts : List ℚ) (c : ℚ) (hc : 0.05 ≤ c) :
    ((benfordDeviations amounts).any (fun d => decide (c < d.deviation)) = true)
      ↔ ∃ d ∈ benfordDigits,
        c < |((digitCount amounts d : ℚ) / (amounts.length : ℚ)) - BENFORD_EXPECTED d| := by
  rw [List.any_eq_true]
  constructor
  · rintro ⟨x, hx, hcx⟩
    unfold benfordDeviations at hx
    obtain ⟨d, hd, hfd⟩ := List.mem_filterMap.mp hx
    by_cases h05 : 0.05 < |((digitCount amounts d : ℚ) / (amounts.length : ℚ))
        - BENFORD_EXPECTED d|
    · have hxe : (⟨d, BENFORD_EXPECTED d,
          (digitCount amounts d : ℚ) / (amounts.length : ℚ),
          |((digitCount amounts d : ℚ) / (amounts.length : ℚ))
            - BENFORD_EXPECTED d|⟩ : BenfordDeviation) = x :=
        Option.some_inj.mp ((if_pos h05).symm.trans hfd)
      refine ⟨d, hd, ?_⟩
      have hdev := of_decide_eq_true hcx
      rw [← hxe] at hdev
      exact hdev
    · rw [if_neg h05] at hfd
      cases hfd
  · rintro ⟨d, hd, hcd⟩
    have h05 : 0.05 < |((digitCount amounts d : ℚ) / (amounts.length : ℚ))
        - BENFORD_EXPECTED d| := lt_of_le_of_lt hc hcd
    refine ⟨⟨d, BENFORD_EXPECTED d,
        (digitCount amounts d : ℚ) / (amounts.length : ℚ),
        |((digitCount amounts d : ℚ) / (amounts.length : ℚ)) - BENFORD_EXPECTED d|⟩,
      ?_, decide_eq_true hcd⟩
    unfold benfordDeviations
    exact List.mem_filterMap.mpr ⟨d, hd, if_pos h05⟩

/-- C3: with fewer than 100 transactions of amount at least 100 the
digit-distribution check emits nothing; otherwise it emits at most one
anomaly, exactly when some leading digit's observed frequency deviates
from the Benford expectation by more than 0.05, with severity "high"
precisely when some digit deviates by more than 0.10 (else "medium"),
and its details list the top-3 qualifying deviations taken from the
deviation table sorted descending by deviation magnitude. -/
theorem benford_check (ts : List Transaction) (startId : Nat) :
    ((benfordAmounts ts).length < 100 → (analyzeBenfordsLaw ts startId).1 = [])
    ∧ (analyzeBenfordsLaw ts startId).1.length ≤ 1
    ∧ ((analyzeBenfordsLaw ts startId).1 ≠ [] ↔
        100 ≤ (benfordAmounts ts).length
        ∧ ∃ d ∈ benfordDigits,
            0.05 < |((digitCount (benfordAmounts ts) d : ℚ)
              / ((benfordAmounts ts).length : ℚ)) - BENFORD_EXPECTED d|)
    ∧ ∀ a ∈ (analyzeBenfordsLaw ts startId).1,
        (a.severity = "high" ↔ ∃ d ∈ benfordDigits,
            0.1 < |((digitCount (benfordAmounts ts) d : ℚ)
              / ((benfordAmounts ts).length : ℚ)) - BENFORD_EXPECTED d|)
        ∧ (a.severity = "high" ∨ a.severity = "medium")
        ∧ a.details = ("Analyzed " ++ natComma (benfordAmounts ts).length
              ++ " payments over $100")
            :: ((sortDeviations (benfordDeviations (benfordAmounts ts))).take 3).map
                benfordDetailLine
            ++ ["Higher-than-expected rates of digits 7-9 can indicate fabricated invoices"]
        ∧ (sortDeviations (benfordDeviations (benfordAmounts ts))).Perm
            (benfordDeviations (benfordAmounts ts))
        ∧ (sortDeviations (benfordDeviations (benfordAmounts ts))).Sorted
            (fun x y => y.deviation ≤ x.deviation) := by
  have hperm : (sortDeviations (benfordDeviations (benfordAmounts ts))).Perm
      (benfordDeviations (benfordAmounts ts)) := List.perm_insertionSort _ _
  have hsorted : (sortDeviations (benfordDeviations (benfordAmounts ts))).Sorted
      (fun x y => y.deviation ≤ x.deviation) := List.sorted_insertionSort devGE _
  unfold analyzeBenfordsLaw
  by_cases h100 : (benfordAmounts ts).length < 100
  · rw [if_pos h100]
    refine ⟨fun _ => rfl, by simp, iff_of_false (by simp) (fun h => by omega), by simp⟩
  · rw [if_neg h100]
    by_cases hdev : 0 < (benfordDeviations (benfordAmounts ts)).length
    · rw [if_pos hdev]
      have hnenil : benfordDeviations (benfordAmounts ts) ≠ [] := by
        intro h
        rw [h] at hdev
        simp at hdev
      refine ⟨fun h => absurd h h100, by simp,
        iff_of_true (by simp)
          ⟨by omega, (benfordDeviations_ne_nil_iff _).mp hnenil⟩, ?_⟩
      intro a ha
      rw [List.mem_singleton] at ha
      subst ha
      have hanysort : ((sortDeviations (benfordDeviations (benfordAmounts ts))).any
            (fun d => decide (0.1 < d.deviation)) = true)
          ↔ ((benfordDeviations (benfordAmounts ts)).any
            (fun d => decide (0.1 < d.deviation)) = true) := by
        rw [List.any_eq_true, List.any_eq_true]
        constructor
        · rintro ⟨x, hx, hcx⟩
          exact ⟨x, hperm.mem_iff.mp hx, hcx⟩
        · rintro ⟨x, hx, hcx⟩
          exact ⟨x, hperm.mem_iff.mpr hx, hcx⟩
      refine ⟨?_, ?_, rfl, hperm, hsorted⟩
      · by_cases hany : (sortDeviations (benfordDeviations (benfordAmounts ts))).any
            (fun d => decide (0.1 < d.deviation)) = true
        · rw [if_pos hany]
          exact iff_of_true rfl
            ((benford_any_iff _ 0.1 (by norm_num)).mp (hanysort.mp hany))
        · rw [if_neg hany]
          refine iff_of_false (by simp) (fun hex => hany ?_)
          exact hanysort.mpr ((benford_any_iff _ 0.1 (by norm_num)).mpr hex)
      · by_cases hany : (sortDeviations (benfordDeviations (benfordAmounts ts))).any
            (fun d => decide (0.1 < d.deviation)) = true
        · rw [if_pos hany]
          exact Or.inl rfl
        · rw [if_neg hany]
          exact Or.inr rfl
    · rw [if_neg hdev]
      refine ⟨fun _ => rfl, by simp, ?_, by simp⟩
      refine iff_of_false (by simp) ?_
      rintro ⟨_, hex⟩
      apply hdev
      have := (benfordDeviations_ne_nil_iff (benfordAmounts ts)).mpr hex
      exact List.length_pos.mpr this

/-- The invoice-splitting scenario input: three payments of $9,950 to
one vendor, inside the $10,000 threshold's window. -/
def acmeInput : List Transaction :=
  [{ department := "Finance", vendor := "Acme LLC", amount := 9950, date := "2024-01-01" },
   { department := "Finance", vendor := "Acme LLC", amount := 9950, date := "2024-01-03" },
   { department := "Finance", vendor := "Acme LLC", amount := 9950, date := "2024-01-05" }]

theorem threshold_avoidance_per_vendor_witness :
    ((detectThresholdAvoidance acmeInput 0).1.countP
        (fun a => decide (a.vendor = some "Acme LLC"))
      = (APPROVAL_THRESHOLDS.map (fun t' =>
          if 3 ≤ (acmeInput.filter (fun t => nearThresholdWindow t' t.amount
              && decide (t.vendor = "Acme LLC"))).length then 1 else 0)).sum)
    ∧ ((detectThresholdAvoidanceFor acmeInput 10000 0).1.countP
          (fun a => decide (a.vendor = some "Acme LLC"))
        = if 3 ≤ (acmeInput.filter (fun t => nearThresholdWindow 10000 t.amount
              && decide (t.vendor = "Acme LLC"))).length then 1 else 0)
    ∧ ∀ a ∈ (detectThresholdAvoidanceFor acmeInput 10000 0).1,
        a.vendor = some "Acme LLC" →
        a.severity = (if 5 ≤ (acmeInput.filter (fun t => nearThresholdWindow 10000 t.amount
              && decide (t.vendor = "Acme LLC"))).length then "critical" else "high")
        ∧ a.amount = some (((acmeInput.filter (fun t => nearThresholdWindow 10000 t.amount
              && decide (t.vendor = "Acme LLC"))).map (fun t => t.amount)).sum)
        ∧ a.count = some (acmeInput.filter (fun t => nearThresholdWindow 10000 t.amount
              && decide (t.vendor = "Acme LLC"))).length :=
  threshold_avoidance_per_vendor acmeInput 0 10000 (by decide) "Acme LLC"

/-- A round-number scenario input: four exact $10K-multiples and three
odd amounts for one vendor (57% round, above the strict 50% bar). -/
def roundInput : List Transaction :=
  [{ department := "Ops", vendor := "R", amount := 10000, date := "2024-02-01" },
   { department := "Ops", vendor := "R", amount := 20000, date := "2024-02-02" },
   { department := "Ops", vendor := "R", amount := 30000, date := "2024-02-03" },
   { department := "Ops", vendor := "R", amount := 10000, date := "2024-02-04" },
   { department := "Ops", vendor := "R", amount := 777, date := "2024-02-05" },
   { department := "Ops", vendor := "R", amount := 778, date := "2024-02-06" },
   { department := "Ops", vendor := "R", amount := 779, date := "2024-02-07" }]

theorem round_numbers_per_vendor_witness :
    ((detectRoundNumbers roundInput 0).1.countP (fun a => decide (a.vendor = some "R"))
      = (roundPatterns.map (fun q =>
          if 4 ≤ (roundInput.filter (fun t => (decide (q.minAmount ≤ t.amount)
              && isExactMultiple t.amount q.divisor) && decide (t.vendor = "R"))).length
            ∧ 50 < ((roundInput.filter (fun t => (decide (q.minAmount ≤ t.amount)
              && isExactMultiple t.amount q.divisor) && decide (t.vendor = "R"))).length : ℚ)
                / (totalForVendor roundInput "R" : ℚ) * 100
          then 1 else 0)).sum)
    ∧ ((detectRoundNumbersFor roundInput ⟨10000, 10000, "$10K increments"⟩ 0).1.countP
          (fun a => decide (a.vendor = some "R"))
      = if 4 ≤ (roundInput.filter (fun t =>
              (decide ((⟨10000, 10000, "$10K increments"⟩ : RoundPattern).minAmount ≤ t.amount)
              && isExactMultiple t.amount
                (⟨10000, 10000, "$10K increments"⟩ : RoundPattern).divisor)
              && decide (t.vendor = "R"))).length
          ∧ 50 < ((roundInput.filter (fun t =>
              (decide ((⟨10000, 10000, "$10K increments"⟩ : RoundPattern).minAmount ≤ t.amount)
              && isExactMultiple t.amount
                (⟨10000, 10000, "$10K increments"⟩ : RoundPattern).divisor)
              && decide (t.vendor = "R"))).length : ℚ)
              / (totalForVendor roundInput "R" : ℚ) * 100
        then 1 else 0)
    ∧ ∀ a ∈ (detectRoundNumbersFor roundInput ⟨10000, 10000, "$10K increments"⟩ 0).1,
        a.vendor = some "R" →
        a.severity = (if 10 ≤ (roundInput.filter (fun t =>
              (decide ((⟨10000, 10000, "$10K increments"⟩ : RoundPattern).minAmount ≤ t.amount)
              && isExactMultiple t.amount
                (⟨10000, 10000, "$10K increments"⟩ : RoundPattern).divisor)
              && decide (t.vendor = "R"))).length
          then "high" else "medium")
        ∧ a.count = some (roundInput.filter (fun t =>
              (decide ((⟨10000, 10000, "$10K increments"⟩ : RoundPattern).minAmount ≤ t.amount)
              && isExactMultiple t.amount
                (⟨10000, 10000, "$10K increments"⟩ : RoundPattern).divisor)
              && decide (t.vendor = "R"))).length :=
  round_numbers_per_vendor roundInput 0 ⟨10000, 10000, "$10K increments"⟩ (by decide) "R"

/-- Concrete run of the invoice-splitting scenario: the $10,000
threshold's loop body flags Acme LLC once, severity "high", amount
$29,850, count 3. -/
theorem acme_scenario_eval :
    (detectThresholdAvoidanceFor acmeInput 10000 0).1.map
        (fun a => (a.vendor, a.severity, a.amount, a.count))
      = [(some "Acme LLC", "high", some 29850, some 3)] := by
  have hwin : nearThresholdWindow 10000 9950 = true := by
    unfold nearThresholdWindow
    norm_num
  simp only [detectThresholdAvoidanceFor, acmeInput, List.filter, hwin]
  norm_num [groupByVendor, firstDedup, emitAll, mkThresholdAnomaly, sumAmounts]

/-- Concrete run of the shell-name scenario: Beta Services LLC with a
$600,000 total is flagged once, tagged Generic business name (the
first matching pattern), severity "medium". -/
theorem beta_scenario_eval :
    (detectAddressRedFlags
        [{ department := "Ops", vendor := "Beta Services LLC", amount := 600000,
           date := "2024-03-01" }] 0).1.map
        (fun a => (a.vendor, a.title, a.severity, a.amount))
      = [(some "Beta Services LLC", "Vendor Name Red Flag: Generic business name",
          "medium", some 600000)] := by
  have h1 : doubleLLCPattern "Beta Services LLC" = false := by decide
  have h2 : acronymPattern "Beta Services LLC" = false := by decide
  have h3 : genericNamePattern "Beta Services LLC" = true := by decide
  have hg : groupByVendor
      [{ department := "Ops", vendor := "Beta Services LLC", amount := 600000,
         date := "2024-03-01" }]
      = [("Beta Services LLC",
          [{ department := "Ops", vendor := "Beta Services LLC", amount := 600000,
             date := "2024-03-01" }])] := by decide
  have hsum : sumAmounts
      [{ department := "Ops", vendor := "Beta Services LLC", amount := 600000,
         date := "2024-03-01" }] = 600000 := by
    norm_num [sumAmounts]
  have hsel : redFlagSelect ("Beta Services LLC",
      [{ department := "Ops", vendor := "Beta Services LLC", amount := 600000,
         date := "2024-03-01" }])
      = some (("Beta Services LLC",
          [{ department := "Ops", vendor := "Beta Services LLC", amount := 600000,
             date := "2024-03-01" }]),
          (genericNamePattern, "Generic business name")) := by
    unfold redFlagSelect
    rw [if_neg (by rw [hsum]; norm_num)]
    simp [suspiciousPatterns, List.find?, h1, h2, h3]
  unfold detectAddressRedFlags
  rw [hg, List.filterMap_cons, hsel]
  simp only [List.filterMap_nil, emitAll, List.map_cons, List.map_nil]
  rw [show (mkRedFlagAnomaly 0 (("Beta Services LLC",
      [{ department := "Ops", vendor := "Beta Services LLC", amount := 600000,
         date := "2024-03-01" }]),
      (genericNamePattern, "Generic business name"))).severity
      = (if 500000 < sumAmounts
          [{ department := "Ops", vendor := "Beta Services LLC", amount := 600000,
             date := "2024-03-01" }] then "medium" else "low") from rfl]
  rw [show (mkRedFlagAnomaly 0 (("Beta Services LLC",
      [{ department := "Ops", vendor := "Beta Services LLC", amount := 600000,
         date := "2024-03-01" }]),
      (genericNamePattern, "Generic business name"))).amount
      = some (sumAmounts
          [{ department := "Ops", vendor := "Beta Services LLC", amount := 600000,
             date := "2024-03-01" }]) from rfl]
  rw [hsum]
  norm_num
  exact ⟨rfl, by decide⟩

/-- Concrete run of the concentration check: vendor A holding 60% of
spending is the single flagged vendor, severity "high". -/
theorem concentration_scenario_eval :
    (detectVendorConcentration
        [{ department := "D", vendor := "A", amount := 60, date := "2024-01-01" },
         { department := "D", vendor := "B", amount := 20, date := "2024-01-02" },
         { department := "D", vendor := "C", amount := 20, date := "2024-01-03" }] 0).1.map
        (fun a => (a.vendor, a.severity))
      = [(some "A", "high")] := by
  have hg : groupByVendor
      [{ department := "D", vendor := "A", amount := 60, date := "2024-01-01" },
       { department := "D", vendor := "B", amount := 20, date := "2024-01-02" },
       { department := "D", vendor := "C", amount := 20, date := "2024-01-03" }]
      = [("A", [{ department := "D", vendor := "A", amount := 60, date := "2024-01-01" }]),
         ("B", [{ department := "D", vendor := "B", amount := 20, date := "2024-01-02" }]),
         ("C", [{ department := "D", vendor := "C", amount := 20, date := "2024-01-03" }])] := by
    decide
  have hv : vendorTotalsList
      [{ department := "D", vendor := "A", amount := 60, date := "2024-01-01" },
       { department := "D", vendor := "B", amount := 20, date := "2024-01-02" },
       { department := "D", vendor := "C", amount := 20, date := "2024-01-03" }]
      = [("A", 60), ("B", 20), ("C", 20)] := by
    unfold vendorTotalsList
    rw [hg]
    norm_num [sumAmounts]
  have hs : sortedVendors
      [{ department := "D", vendor := "A", amount := 60, date := "2024-01-01" },
       { department := "D", vendor := "B", amount := 20, date := "2024-01-02" },
       { department := "D", vendor := "C", amount := 20, date := "2024-01-03" }]
      = [("A", 60), ("B", 20), ("C", 20)] := by
    unfold sortedVendors
    rw [hv]
    decide
  have ht : totalSpending
      [{ department := "D", vendor := "A", amount := 60, date := "2024-01-01" },
       { department := "D", vendor := "B", amount := 20, date := "2024-01-02" },
       { department := "D", vendor := "C", amount := 20, date := "2024-01-03" }]
      = 100 := by
    unfold totalSpending
    rw [hv]
    norm_num
  unfold detectVendorConcentration
  rw [hs, ht]
  norm_num
